import Mathlib

/-!
# The OpenCL runner of `02-gyak/04-vector` (`run_cl.c`, `run_cl.h`)

The runner talks to the OpenCL runtime, the C allocator and a kernel-source
loader.  The embedding makes every external call an `Event` that records the
arguments the code passed and the result the call gave back.  The results come
from an environment (`Env`, `InitEnv`): one answer for every call the code can
make.  A function of the source becomes a function from the environment and
its C arguments to the list of events it performs, in program order, together
with its return value.

Pointers and OpenCL handles are natural numbers, `0` being `NULL`.  The
descriptor array `bufs[0 .. n_bufs)` is a list and `n_bufs` is its length.
-/

namespace RunCL

/-- Pointers and OpenCL object handles; `0` is `NULL`. -/
abbrev Handle := Nat

/-! ## Constants of `CL/cl.h` -/

def CL_SUCCESS : Int := 0
def CL_MEM_READ_WRITE : Nat := 1
def CL_MEM_WRITE_ONLY : Nat := 2
def CL_MEM_READ_ONLY : Nat := 4
def CL_MEM_COPY_HOST_PTR : Nat := 32
def CL_DEVICE_TYPE_GPU : Nat := 4
def CL_PROGRAM_BUILD_LOG : Nat := 4483
/-- The number of values of `size_t`. -/
def SIZE_MOD : Nat := 2 ^ 64

/-! ## Data model (`run_cl.h`) -/

structure CLContext where
  platform_id : Handle
  device_id : Handle
  context : Handle
  command_queue : Handle
  deriving DecidableEq, Repr

structure CLBufferDesc where
  host_ptr : Handle
  size : Nat
  flags : Nat
  read_back : Int
  deriving DecidableEq, Repr

structure CLKernelDesc where
  source_path : String
  kernel_name : String
  work_dim : Nat
  global_size : Handle
  local_size : Handle
  deriving DecidableEq, Repr

/-- The callback type: kernel, handle array, its length, user data; returns an `int`.
What the callback does to the kernel object is not observed. -/
abbrev CLArgBindFn := Handle → List Handle → Int → Handle → Int

/-! ## External calls -/

/-- One external call, with the arguments passed and the results obtained. -/
inductive Event where
  | calloc (nmemb : Nat) (result : Handle)
  | malloc (size : Nat) (result : Handle)
  | free (ptr : Handle)
  | fprintf_stderr (text : String)
  | load_kernel_source (path : String) (result : Handle) (loader_err : Int)
  | clCreateProgramWithSource (context source result : Handle) (err : Int)
  | clBuildProgram (program device : Handle) (err : Int)
  | clGetProgramBuildInfo (program device : Handle) (param_name param_value_size : Nat)
      (param_value : Handle)
  | clCreateKernel (program : Handle) (kernel_name : String) (result : Handle) (err : Int)
  | clCreateBuffer (context : Handle) (flags size : Nat) (host_ptr result : Handle) (err : Int)
  | bind_args (kernel : Handle) (bufs : List Handle) (n_bufs : Int) (user_data : Handle)
      (result : Int)
  | clEnqueueNDRangeKernel (queue kernel : Handle) (work_dim : Nat)
      (global_size local_size : Handle) (err : Int)
  | clEnqueueReadBuffer (queue buffer : Handle) (blocking : Bool) (offset size : Nat)
      (ptr : Handle) (err : Int)
  | clFinish (queue : Handle)
  | clReleaseMemObject (memobj : Handle)
  | clReleaseKernel (kernel : Handle)
  | clReleaseProgram (program : Handle)
  | clGetPlatformIDs (result : Handle) (err : Int)
  | clGetDeviceIDs (platform : Handle) (device_type : Nat) (result : Handle) (err : Int)
  | clCreateContext (device result : Handle) (err : Int)
  | clCreateCommandQueue (context device result : Handle) (err : Int)
  | clReleaseCommandQueue (queue : Handle)
  | clReleaseContext (context : Handle)
  | clReleaseDevice (device : Handle)
  deriving DecidableEq, Repr

/-- The answers of the outside world to the calls of one `cl_run_kernel` invocation. -/
structure Env where
  /-- Result of `calloc` for the handle array. -/
  device_bufs : Handle
  /-- Result of `load_kernel_source`: the text pointer and `loader_err`. -/
  source : Handle
  loader_err : Int
  /-- Result of `clCreateProgramWithSource`. -/
  program : Handle
  program_err : Int
  /-- Result of `clBuildProgram`. -/
  build_err : Int
  /-- What the first `clGetProgramBuildInfo` stores in `log_size`. -/
  log_size : Nat
  /-- Result of `malloc` for the log. -/
  log : Handle
  /-- The C string in `log` after the second `clGetProgramBuildInfo`. -/
  log_text : String
  /-- Result of `clCreateKernel`. -/
  kernel : Handle
  kernel_err : Int
  /-- Result of `clCreateBuffer` for descriptor `i`. -/
  buffer : Nat → Handle
  buffer_err : Nat → Int
  /-- Result of `clEnqueueNDRangeKernel`. -/
  enqueue_err : Int
  /-- Result of `clEnqueueReadBuffer` for descriptor `i`. -/
  read_err : Nat → Int

/-- The answers of the outside world to the calls of `cl_init`. -/
structure InitEnv where
  platform_id : Handle
  platform_err : Int
  device_id : Handle
  device_err : Int
  context : Handle
  context_err : Int
  command_queue : Handle
  queue_err : Int
  deriving DecidableEq, Repr

/-! ## `run_cl.c` -/

/-- The text `CL_CHECK` prints: `"[OpenCL] %s (code %d)\n"`. -/
def CL_CHECK_text (msg : String) (err : Int) : String :=
  "[OpenCL] " ++ msg ++ " (code " ++ toString err ++ ")\n"

/-- `print_build_log` (run_cl.c 21-36). -/
def print_build_log (env : Env) (program device : Handle) : List Event :=
  let log_size := env.log_size
  let q := Event.clGetProgramBuildInfo program device CL_PROGRAM_BUILD_LOG 0 0
  let log := env.log
  let m := Event.malloc ((log_size + 1) % SIZE_MOD) log
  if log = 0 then [q, m]
  else
    [q, m,
     Event.clGetProgramBuildInfo program device CL_PROGRAM_BUILD_LOG log_size log,
     Event.fprintf_stderr ("[OpenCL] Build log:\n" ++ env.log_text ++ "\n"),
     Event.free log]

/-- `buffer_needs_upload` (run_cl.c 43-48); the C truth value as a `Bool`. -/
def buffer_needs_upload (desc : CLBufferDesc) : Bool :=
  if desc.host_ptr = 0 then false
  else (desc.flags &&& CL_MEM_READ_ONLY != 0) || (desc.flags &&& CL_MEM_READ_WRITE != 0)

/-- `cl_init` (run_cl.c 53-77): the events, the context structure it leaves, the result. -/
def cl_init (env : InitEnv) (ctx : CLContext) : List Event × CLContext × Int :=
  let ctx1 := { ctx with platform_id := env.platform_id }
  let e1 := Event.clGetPlatformIDs env.platform_id env.platform_err
  if env.platform_err ≠ CL_SUCCESS then
    ([e1, Event.fprintf_stderr (CL_CHECK_text "clGetPlatformIDs failed" env.platform_err)],
      ctx1, -1)
  else
  let ctx2 := { ctx1 with device_id := env.device_id }
  let e2 := Event.clGetDeviceIDs ctx1.platform_id CL_DEVICE_TYPE_GPU env.device_id env.device_err
  if env.device_err ≠ CL_SUCCESS then
    ([e1, e2, Event.fprintf_stderr (CL_CHECK_text "clGetDeviceIDs failed" env.device_err)],
      ctx2, -1)
  else
  let ctx3 := { ctx2 with context := env.context }
  let e3 := Event.clCreateContext ctx2.device_id env.context env.context_err
  if env.context_err ≠ CL_SUCCESS then
    ([e1, e2, e3, Event.fprintf_stderr (CL_CHECK_text "clCreateContext failed" env.context_err)],
      ctx3, -1)
  else
  let ctx4 := { ctx3 with command_queue := env.command_queue }
  let e4 := Event.clCreateCommandQueue ctx3.context ctx3.device_id env.command_queue env.queue_err
  if env.queue_err ≠ CL_SUCCESS then
    ([e1, e2, e3, e4,
      Event.fprintf_stderr (CL_CHECK_text "clCreateCommandQueue failed" env.queue_err),
      Event.clReleaseContext ctx4.context],
      ctx4, -1)
  else
    ([e1, e2, e3, e4], ctx4, 0)

/-- `cl_cleanup` (run_cl.c 82-87). -/
def cl_cleanup (ctx : CLContext) : List Event :=
  [Event.clReleaseCommandQueue ctx.command_queue,
   Event.clReleaseContext ctx.context,
   Event.clReleaseDevice ctx.device_id]

/-- The local variables of `cl_run_kernel` that the `cleanup:` label reads;
`mem` is the content of the array `device_bufs` points to. -/
structure Locals where
  ret : Int
  source : Handle
  program : Handle
  kernel : Handle
  device_bufs : Handle
  mem : List Handle
  deriving DecidableEq, Repr

/-- The flags `cl_run_kernel` passes to `clCreateBuffer` (run_cl.c 137-142). -/
def alloc_flags (d : CLBufferDesc) : Nat :=
  if buffer_needs_upload d then d.flags ||| CL_MEM_COPY_HOST_PTR else d.flags

/-- The host pointer `cl_run_kernel` passes to `clCreateBuffer` (run_cl.c 147-148). -/
def alloc_host_ptr (d : CLBufferDesc) : Handle :=
  if buffer_needs_upload d then d.host_ptr else 0

/-- The loop of step 3 (run_cl.c 136-155) from index `i` on, `ds` being `bufs[i ..]`:
the events, the array content, and whether the loop ran to its end. -/
def alloc_loop (env : Env) (ctx : CLContext) :
    List CLBufferDesc → Nat → List Handle → List Event × List Handle × Bool
  | [], _, mem => ([], mem, true)
  | d :: ds, i, mem =>
    let err := env.buffer_err i
    let ev := Event.clCreateBuffer ctx.context (alloc_flags d) d.size (alloc_host_ptr d)
      (env.buffer i) err
    let mem1 := mem.set i (env.buffer i)
    if err ≠ CL_SUCCESS then
      ([ev, Event.fprintf_stderr ("[OpenCL] clCreateBuffer failed for buffer " ++ toString i
          ++ " (code " ++ toString err ++ ")\n")], mem1, false)
    else
      let r := alloc_loop env ctx ds (i + 1) mem1
      (ev :: r.1, r.2.1, r.2.2)

/-- The loop of step 6 (run_cl.c 173-191) from index `i` on, `ds` being `bufs[i ..]`:
the events and whether the loop ran to its end. -/
def read_loop (env : Env) (ctx : CLContext) (n_bufs : Nat) (mem : List Handle) :
    List CLBufferDesc → Nat → List Event × Bool
  | [], _ => ([], true)
  | d :: ds, i =>
    if d.read_back = 0 ∨ d.host_ptr = 0 then read_loop env ctx n_bufs mem ds (i + 1)
    else
      let blocking : Bool := decide ((i : Int) = (n_bufs : Int) - 1)
      let err := env.read_err i
      let ev := Event.clEnqueueReadBuffer ctx.command_queue (mem.getD i 0) blocking 0 d.size
        d.host_ptr err
      if err ≠ CL_SUCCESS then
        ([ev, Event.fprintf_stderr ("[OpenCL] clEnqueueReadBuffer failed for buffer "
            ++ toString i ++ " (code " ++ toString err ++ ")\n")], false)
      else
        let r := read_loop env ctx n_bufs mem ds (i + 1)
        (ev :: r.1, r.2)

/-- The release loop of the `cleanup:` label (run_cl.c 201-203): `release_loop p mem k`
visits the indices `k - 1, ..., 0`. -/
def release_loop (device_bufs : Handle) (mem : List Handle) : Nat → List Event
  | 0 => []
  | k + 1 =>
    (if device_bufs ≠ 0 ∧ mem.getD k 0 ≠ 0 then [Event.clReleaseMemObject (mem.getD k 0)]
     else []) ++ release_loop device_bufs mem k

/-- The code from the `cleanup:` label to the `return` (run_cl.c 199-209). -/
def cleanup (n_bufs : Nat) (st : Locals) : List Event :=
  release_loop st.device_bufs st.mem n_bufs
    ++ [Event.free st.device_bufs]
    ++ (if st.kernel ≠ 0 then [Event.clReleaseKernel st.kernel] else [])
    ++ (if st.program ≠ 0 then [Event.clReleaseProgram st.program] else [])
    ++ [Event.free st.source]

/-- The code of `cl_run_kernel` before the `cleanup:` label (run_cl.c 99-197): the events
and the local variables with which the label is reached, by `goto` or by falling through. -/
def cl_run_kernel_body (env : Env) (ctx : CLContext) (kd : CLKernelDesc)
    (bufs : List CLBufferDesc) (bind_args : CLArgBindFn) (user_data : Handle) :
    List Event × Locals :=
  let n_bufs := bufs.length
  let st0 : Locals :=
    { ret := -1, source := 0, program := 0, kernel := 0, device_bufs := 0, mem := [] }
  -- 1. the handle array
  let t1 := [Event.calloc n_bufs env.device_bufs]
  if env.device_bufs = 0 then
    (t1 ++ [Event.fprintf_stderr "[OpenCL] Out of memory for buffer handle array\n"], st0)
  else
  let st1 := { st0 with device_bufs := env.device_bufs, mem := List.replicate n_bufs 0 }
  -- 2. load and compile
  let st2 := { st1 with source := env.source }
  let t2 := t1 ++ [Event.load_kernel_source kd.source_path env.source env.loader_err]
  if env.loader_err ≠ 0 then
    (t2 ++ [Event.fprintf_stderr ("[OpenCL] Could not load kernel source: "
        ++ kd.source_path ++ "\n")], st2)
  else
  let st3 := { st2 with program := env.program }
  let t3 := t2 ++ [Event.clCreateProgramWithSource ctx.context st2.source env.program
    env.program_err]
  if env.program_err ≠ CL_SUCCESS then
    (t3 ++ [Event.fprintf_stderr
        (CL_CHECK_text "clCreateProgramWithSource failed" env.program_err)], st3)
  else
  let t4 := t3 ++ [Event.clBuildProgram st3.program ctx.device_id env.build_err]
  if env.build_err ≠ CL_SUCCESS then
    (t4 ++ print_build_log env st3.program ctx.device_id, st3)
  else
  let st5 := { st3 with kernel := env.kernel }
  let t5 := t4 ++ [Event.clCreateKernel st3.program kd.kernel_name env.kernel env.kernel_err]
  if env.kernel_err ≠ CL_SUCCESS then
    (t5 ++ [Event.fprintf_stderr (CL_CHECK_text "clCreateKernel failed" env.kernel_err)], st5)
  else
  -- 3. device buffers
  let a := alloc_loop env ctx bufs 0 st5.mem
  let st6 := { st5 with mem := a.2.1 }
  let t6 := t5 ++ a.1
  if a.2.2 = false then (t6, st6)
  else
  -- 4. the callback
  let b := bind_args st6.kernel st6.mem (n_bufs : Int) user_data
  let t7 := t6 ++ [Event.bind_args st6.kernel st6.mem (n_bufs : Int) user_data b]
  if b ≠ 0 then
    (t7 ++ [Event.fprintf_stderr "[OpenCL] Argument binding callback returned error\n"], st6)
  else
  -- 5. launch
  let t8 := t7 ++ [Event.clEnqueueNDRangeKernel ctx.command_queue st6.kernel kd.work_dim
    kd.global_size kd.local_size env.enqueue_err]
  if env.enqueue_err ≠ CL_SUCCESS then
    (t8 ++ [Event.fprintf_stderr
        (CL_CHECK_text "clEnqueueNDRangeKernel failed" env.enqueue_err)], st6)
  else
  -- 6. read back
  let r := read_loop env ctx n_bufs st6.mem bufs 0
  let t9 := t8 ++ r.1
  if r.2 = false then (t9, st6)
  else
    (t9 ++ [Event.clFinish ctx.command_queue], { st6 with ret := 0 })

/-- `cl_run_kernel` (run_cl.c 92-210): the events in program order and the result. -/
def cl_run_kernel (env : Env) (ctx : CLContext) (kd : CLKernelDesc)
    (bufs : List CLBufferDesc) (bind_args : CLArgBindFn) (user_data : Handle) :
    List Event × Int :=
  let r := cl_run_kernel_body env ctx kd bufs bind_args user_data
  (r.1 ++ cleanup bufs.length r.2, r.2.ret)

/-! ## Closed forms of the loops and of the event sequences -/

/-- The `clCreateBuffer` call of step 3 for descriptor `d` at index `i`. -/
def create_event (env : Env) (ctx : CLContext) (i : Nat) (d : CLBufferDesc) : Event :=
  Event.clCreateBuffer ctx.context (alloc_flags d) d.size (alloc_host_ptr d)
    (env.buffer i) (env.buffer_err i)

/-- The `clCreateBuffer` calls of step 3 for the descriptors `ds`, the first at index `i`. -/
def create_events (env : Env) (ctx : CLContext) : List CLBufferDesc → Nat → List Event
  | [], _ => []
  | d :: ds, i => create_event env ctx i d :: create_events env ctx ds (i + 1)

/-- The handle array of length `n` once the first `cnt` entries hold the results of
`clCreateBuffer`; the other entries are as `calloc` left them. -/
def mem_after (env : Env) (n cnt : Nat) : List Handle :=
  (List.range cnt).map env.buffer ++ List.replicate (n - cnt) 0

/-- Whether step 6 copies descriptor `d` back (run_cl.c 174). -/
def wants_read (d : CLBufferDesc) : Prop := ¬ (d.read_back = 0 ∨ d.host_ptr = 0)

instance (d : CLBufferDesc) : Decidable (wants_read d) := by unfold wants_read; infer_instance

/-- The `clEnqueueReadBuffer` call of step 6 for descriptor `d` at index `i`. -/
def read_event (env : Env) (ctx : CLContext) (n_bufs : Nat) (mem : List Handle) (i : Nat)
    (d : CLBufferDesc) : Event :=
  Event.clEnqueueReadBuffer ctx.command_queue (mem.getD i 0)
    (decide ((i : Int) = (n_bufs : Int) - 1)) 0 d.size d.host_ptr (env.read_err i)

/-- The `clEnqueueReadBuffer` calls of step 6 for the descriptors `ds`, the first of which
has index `i`. -/
def read_events (env : Env) (ctx : CLContext) (n_bufs : Nat) (mem : List Handle) :
    List CLBufferDesc → Nat → List Event
  | [], _ => []
  | d :: ds, i =>
    if wants_read d then
      read_event env ctx n_bufs mem i d :: read_events env ctx n_bufs mem ds (i + 1)
    else read_events env ctx n_bufs mem ds (i + 1)

/-- The first five stages all succeeded. -/
def Env.setup_ok (env : Env) : Prop :=
  env.device_bufs ≠ 0 ∧ env.loader_err = 0 ∧ env.program_err = CL_SUCCESS ∧
    env.build_err = CL_SUCCESS ∧ env.kernel_err = CL_SUCCESS

/-- The calls of steps 1 and 2, when they all succeed. -/
def setup_events (env : Env) (ctx : CLContext) (kd : CLKernelDesc) (n : Nat) : List Event :=
  [Event.calloc n env.device_bufs,
   Event.load_kernel_source kd.source_path env.source env.loader_err,
   Event.clCreateProgramWithSource ctx.context env.source env.program env.program_err,
   Event.clBuildProgram env.program ctx.device_id env.build_err,
   Event.clCreateKernel env.program kd.kernel_name env.kernel env.kernel_err]

/-- The local variables at the `cleanup:` label once step 3 has stored `cnt` handles. -/
def locals_after (env : Env) (n cnt : Nat) (ret : Int) : Locals :=
  { ret := ret, source := env.source, program := env.program, kernel := env.kernel,
    device_bufs := env.device_bufs, mem := mem_after env n cnt }

/-- The callback invocation of step 4. -/
def bind_event (env : Env) (n : Nat) (bind_args : CLArgBindFn) (user_data : Handle) : Event :=
  Event.bind_args env.kernel (mem_after env n n) (n : Int) user_data
    (bind_args env.kernel (mem_after env n n) (n : Int) user_data)

/-- The launch of step 5. -/
def launch_event (env : Env) (ctx : CLContext) (kd : CLKernelDesc) : Event :=
  Event.clEnqueueNDRangeKernel ctx.command_queue env.kernel kd.work_dim kd.global_size
    kd.local_size env.enqueue_err

/-! ## Observations on event sequences -/

/-- The arguments `(flags, size, host_ptr)` of a `clCreateBuffer` call. -/
@[simp] def Event.create_call : Event → Option (Nat × Nat × Handle)
  | .clCreateBuffer _ f s hp _ _ => some (f, s, hp)
  | _ => none

/-- The `clCreateBuffer` calls of an event sequence, in order. -/
def create_calls (tr : List Event) : List (Nat × Nat × Handle) :=
  tr.filterMap Event.create_call

/-- The `clCreateBuffer` call that the specification prescribes for a descriptor: with
`CL_MEM_COPY_HOST_PTR` and the host pointer when the host pointer is present and the
access mode is read-only or read-write, with the flags as given and `NULL` otherwise. -/
def stated_create (d : CLBufferDesc) : Nat × Nat × Handle :=
  if d.host_ptr ≠ 0 ∧ (d.flags &&& CL_MEM_READ_ONLY ≠ 0 ∨ d.flags &&& CL_MEM_READ_WRITE ≠ 0) then
    (d.flags ||| CL_MEM_COPY_HOST_PTR, d.size, d.host_ptr)
  else (d.flags, d.size, 0)

/-! ## Sample inputs -/

/-- An environment in which every call succeeds. -/
def env_ok : Env :=
  { device_bufs := 100, source := 200, loader_err := 0, program := 300, program_err := 0,
    build_err := 0, log_size := 0, log := 0, log_text := "", kernel := 400, kernel_err := 0,
    buffer := fun i => 500 + i, buffer_err := fun _ => 0, enqueue_err := 0,
    read_err := fun _ => 0 }

def ctx_sample : CLContext :=
  { platform_id := 1, device_id := 2, context := 3, command_queue := 4 }

def kd_sample : CLKernelDesc :=
  { source_path := "kernels/vector.cl", kernel_name := "add_vectors_kernel", work_dim := 1,
    global_size := 50, local_size := 51 }

/-- The three descriptors of `add_vectors` (vector.c 87-91) for `n = 4`. -/
def bufs_vector : List CLBufferDesc :=
  [ { host_ptr := 10, size := 16, flags := CL_MEM_READ_ONLY, read_back := 0 },
    { host_ptr := 20, size := 16, flags := CL_MEM_READ_ONLY, read_back := 0 },
    { host_ptr := 30, size := 16, flags := CL_MEM_WRITE_ONLY, read_back := 1 } ]

/-- A callback that accepts. -/
def bind_ok : CLArgBindFn := fun _ _ _ _ => 0

/-- Output descriptor first, a device-only scratch buffer last. -/
def bufs_scratch_last : List CLBufferDesc :=
  [ { host_ptr := 30, size := 16, flags := CL_MEM_WRITE_ONLY, read_back := 1 },
    { host_ptr := 0, size := 16, flags := CL_MEM_READ_WRITE, read_back := 0 } ]

/-- The blocking flag of a `clEnqueueReadBuffer` call. -/
@[simp] def Event.read_blocking : Event → Option Bool
  | .clEnqueueReadBuffer _ _ b _ _ _ _ => some b
  | _ => none

/-- The blocking flags of the device-to-host copies of an event sequence, in order. -/
def read_blocking_flags (tr : List Event) : List Bool := tr.filterMap Event.read_blocking

/-! ### Resources -/

/-- The kinds of resource one invocation of `cl_run_kernel` creates. -/
inductive Kind where
  | handle_array
  | source_text
  | build_log
  | program
  | kernel
  | buffer
  deriving DecidableEq, Repr

/-- The resource a call creates: memory when the allocator or the loader returns a
non-null pointer, an OpenCL object when the creating call reports `CL_SUCCESS`. -/
@[simp] def Event.acquires : Event → Option (Kind × Handle)
  | .calloc _ p => if p = 0 then none else some (Kind.handle_array, p)
  | .load_kernel_source _ p _ => if p = 0 then none else some (Kind.source_text, p)
  | .malloc _ p => if p = 0 then none else some (Kind.build_log, p)
  | .clCreateProgramWithSource _ _ h err =>
    if err = CL_SUCCESS then some (Kind.program, h) else none
  | .clCreateKernel _ _ h err => if err = CL_SUCCESS then some (Kind.kernel, h) else none
  | .clCreateBuffer _ _ _ _ h err => if err = CL_SUCCESS then some (Kind.buffer, h) else none
  | _ => none

/-- A call that releases a resource; `free(NULL)` releases nothing. -/
@[simp] def Event.release_call : Event → Option Event
  | .free p => if p = 0 then none else some (.free p)
  | .clReleaseMemObject h => some (.clReleaseMemObject h)
  | .clReleaseKernel h => some (.clReleaseKernel h)
  | .clReleaseProgram h => some (.clReleaseProgram h)
  | _ => none

/-- The resources created in an event sequence, in order. -/
def acquired (tr : List Event) : List (Kind × Handle) := tr.filterMap Event.acquires

/-- The resources of kind `k` created in an event sequence, in order. -/
def acquired_of (k : Kind) (tr : List Event) : List Handle :=
  (acquired tr).filterMap (fun r => if r.1 = k then some r.2 else none)

/-- The releasing calls of an event sequence, in order. -/
def release_calls (tr : List Event) : List Event := tr.filterMap Event.release_call

/-- Resources created and not yet released at the end of an event sequence. -/
def outstanding (tr : List Event) : Int :=
  ((acquired tr).length : Int) - ((release_calls tr).length : Int)

/-- The OpenCL contract of the object-creating calls: a call that reports `CL_SUCCESS`
returns a non-null object, and a call that reports an error returns `NULL`. -/
def Env.conforms (env : Env) (n_bufs : Nat) : Prop :=
  (env.program_err = CL_SUCCESS ↔ env.program ≠ 0) ∧
  (env.kernel_err = CL_SUCCESS ↔ env.kernel ≠ 0) ∧
  ∀ i, i < n_bufs → (env.buffer_err i = CL_SUCCESS ↔ env.buffer i ≠ 0)

/-- The arguments of one call of `cl_run_kernel`, with the answers it will get. -/
structure Invocation where
  env : Env
  kd : CLKernelDesc
  bufs : List CLBufferDesc
  bind_args : CLArgBindFn
  user_data : Handle

/-- The events of a caller that runs the invocations one after the other on one context. -/
def run_sequence (ctx : CLContext) : List Invocation → List Event
  | [] => []
  | v :: vs =>
    (cl_run_kernel v.env ctx v.kd v.bufs v.bind_args v.user_data).1 ++ run_sequence ctx vs

/-- An environment in which the second buffer allocation fails. -/
def env_alloc_fails : Env :=
  { env_ok with buffer := fun i => if i = 1 then 0 else 500 + i,
                buffer_err := fun i => if i = 1 then -61 else 0 }

/-- A successful invocation followed by one whose second allocation fails. -/
def sample_invocations : List Invocation :=
  [ { env := env_ok, kd := kd_sample, bufs := bufs_vector, bind_args := bind_ok,
      user_data := 7 },
    { env := env_alloc_fails, kd := kd_sample, bufs := bufs_vector, bind_args := bind_ok,
      user_data := 7 } ]

/-! ### Launch, read-back, callback -/

/-- The error code a `clEnqueueNDRangeKernel` call returned. -/
@[simp] def Event.launch_result : Event → Option Int
  | .clEnqueueNDRangeKernel _ _ _ _ _ err => some err
  | _ => none

/-- The error codes of the launches of an event sequence, in order. -/
def launch_results (tr : List Event) : List Int := tr.filterMap Event.launch_result

/-- The error code a `clEnqueueReadBuffer` call returned. -/
@[simp] def Event.read_result : Event → Option Int
  | .clEnqueueReadBuffer _ _ _ _ _ _ err => some err
  | _ => none

/-- The error codes of the device-to-host copies of an event sequence, in order. -/
def read_results (tr : List Event) : List Int := tr.filterMap Event.read_result

/-- The copy a `clEnqueueReadBuffer` call asks for: `(buffer, offset, size, ptr)`. -/
@[simp] def Event.read_call : Event → Option (Handle × Nat × Nat × Handle)
  | .clEnqueueReadBuffer _ b _ o s p _ => some (b, o, s, p)
  | _ => none

/-- The device-to-host copies of an event sequence, in order. -/
def read_calls (tr : List Event) : List (Handle × Nat × Nat × Handle) :=
  tr.filterMap Event.read_call

/-- The handle a `clCreateBuffer` call returned. -/
@[simp] def Event.created_buffer : Event → Option Handle
  | .clCreateBuffer _ _ _ _ h _ => some h
  | _ => none

/-- The handles the `clCreateBuffer` calls of an event sequence returned, in order. -/
def created_buffers (tr : List Event) : List Handle := tr.filterMap Event.created_buffer

/-- The copies the specification prescribes, `device_bufs` being the device buffers of the
descriptors: one for each descriptor with `read_back` set and a non-null host pointer, in
descriptor order, of `size` bytes from offset 0 of its device buffer into its `host_ptr`. -/
def stated_reads (bufs : List CLBufferDesc) (device_bufs : List Handle) :
    List (Handle × Nat × Nat × Handle) :=
  (bufs.zip device_bufs).filterMap (fun p =>
    if p.1.read_back ≠ 0 ∧ p.1.host_ptr ≠ 0 then some (p.2, 0, p.1.size, p.1.host_ptr)
    else none)

/-- The arguments `(kernel, bufs, n_bufs, user_data)` of a callback invocation. -/
@[simp] def Event.bind_call : Event → Option (Handle × List Handle × Int × Handle)
  | .bind_args k hs n ud _ => some (k, hs, n, ud)
  | _ => none

/-- The callback invocations of an event sequence, in order. -/
def bind_calls (tr : List Event) : List (Handle × List Handle × Int × Handle) :=
  tr.filterMap Event.bind_call

/-- The value a callback invocation returned. -/
@[simp] def Event.bind_result : Event → Option Int
  | .bind_args _ _ _ _ r => some r
  | _ => none

/-- The values the callback invocations of an event sequence returned, in order. -/
def bind_results (tr : List Event) : List Int := tr.filterMap Event.bind_result

/-- The `loader_err` a `load_kernel_source` call gave. -/
@[simp] def Event.load_result : Event → Option Int
  | .load_kernel_source _ _ err => some err
  | _ => none

/-- The `loader_err` values of an event sequence, in order. -/
def load_results (tr : List Event) : List Int := tr.filterMap Event.load_result

/-- The error code a `clBuildProgram` call returned. -/
@[simp] def Event.build_result : Event → Option Int
  | .clBuildProgram _ _ err => some err
  | _ => none

/-- The error codes of the `clBuildProgram` calls of an event sequence, in order. -/
def build_results (tr : List Event) : List Int := tr.filterMap Event.build_result

/-- The error code a `clCreateKernel` call returned. -/
@[simp] def Event.kernel_result : Event → Option Int
  | .clCreateKernel _ _ _ err => some err
  | _ => none

/-- The error codes of the `clCreateKernel` calls of an event sequence, in order. -/
def kernel_results (tr : List Event) : List Int := tr.filterMap Event.kernel_result

/-- The error code a `clCreateBuffer` call returned. -/
@[simp] def Event.buffer_result : Event → Option Int
  | .clCreateBuffer _ _ _ _ _ err => some err
  | _ => none

/-- The error codes of the `clCreateBuffer` calls of an event sequence, in order. -/
def buffer_results (tr : List Event) : List Int := tr.filterMap Event.buffer_result

/-- The queue a `clFinish` call waits for. -/
@[simp] def Event.finish_call : Event → Option Handle
  | .clFinish q => some q
  | _ => none

/-- The `clFinish` calls of an event sequence, in order. -/
def finish_calls (tr : List Event) : List Handle := tr.filterMap Event.finish_call

/-- A callback that rejects. -/
def bind_reject : CLArgBindFn := fun _ _ _ _ => -1

/-! ### Stages -/

/-- A call of the pipeline that reports failure, as `cl_run_kernel` tests it. -/
@[simp] def Event.failed : Event → Bool
  | .calloc _ p => decide (p = 0)
  | .load_kernel_source _ _ err => decide (err ≠ 0)
  | .clCreateProgramWithSource _ _ _ err => decide (err ≠ CL_SUCCESS)
  | .clBuildProgram _ _ err => decide (err ≠ CL_SUCCESS)
  | .clCreateKernel _ _ _ err => decide (err ≠ CL_SUCCESS)
  | .clCreateBuffer _ _ _ _ _ err => decide (err ≠ CL_SUCCESS)
  | .bind_args _ _ _ _ r => decide (r ≠ 0)
  | .clEnqueueNDRangeKernel _ _ _ _ _ err => decide (err ≠ CL_SUCCESS)
  | .clEnqueueReadBuffer _ _ _ _ _ _ err => decide (err ≠ CL_SUCCESS)
  | _ => false

/-- The calls that make up the stages of the pipeline: handle-array allocation, source
load, program creation, build, kernel creation, buffer allocation, callback, launch,
read-back, finish.  Diagnostics and releases are not stages. -/
@[simp] def Event.is_stage : Event → Bool
  | .calloc _ _ => true
  | .load_kernel_source _ _ _ => true
  | .clCreateProgramWithSource _ _ _ _ => true
  | .clBuildProgram _ _ _ => true
  | .clCreateKernel _ _ _ _ => true
  | .clCreateBuffer _ _ _ _ _ _ => true
  | .bind_args _ _ _ _ _ => true
  | .clEnqueueNDRangeKernel _ _ _ _ _ _ => true
  | .clEnqueueReadBuffer _ _ _ _ _ _ _ => true
  | .clFinish _ => true
  | _ => false

/-- No stage is performed after a stage that failed. -/
def stops_at_failure (tr : List Event) : Prop :=
  tr.Pairwise (fun a b => a.failed = true → b.is_stage = false)

/-- An environment in which the copy of descriptor 2 fails. -/
def env_read_fails : Env := { env_ok with read_err := fun i => if i = 2 then -5 else 0 }

/-! ### Diagnostics -/

/-- The text a call writes to `stderr`. -/
@[simp] def Event.stderr_text : Event → Option String
  | .fprintf_stderr t => some t
  | _ => none

/-- The texts written to `stderr` in an event sequence, in order. -/
def stderr_texts (tr : List Event) : List String := tr.filterMap Event.stderr_text

/-- An environment in which `clBuildProgram` fails and the `malloc` of `print_build_log`
returns `NULL`. -/
def env_build_fails_no_log : Env :=
  { env_ok with build_err := -11, log_size := 57, log := 0,
                log_text := "kernel.cl:3:1: error: unknown type name" }

/-! ### `cl_init` -/

/-- The object a call of `cl_init` creates: a context or a command queue.  The platform and
device identifiers are looked up, not created. -/
@[simp] def Event.init_creates : Event → Option Event
  | .clCreateContext _ h err => if err = CL_SUCCESS then some (.clReleaseContext h) else none
  | .clCreateCommandQueue _ _ h err =>
    if err = CL_SUCCESS then some (.clReleaseCommandQueue h) else none
  | _ => none

/-- The releasing calls matching the objects created in an event sequence, in order. -/
def init_created (tr : List Event) : List Event := tr.filterMap Event.init_creates

/-- A call that releases a queue, a context or a device. -/
@[simp] def Event.init_release : Event → Option Event
  | .clReleaseCommandQueue q => some (.clReleaseCommandQueue q)
  | .clReleaseContext c => some (.clReleaseContext c)
  | .clReleaseDevice d => some (.clReleaseDevice d)
  | _ => none

/-- The queue, context and device releases of an event sequence, in order. -/
def init_releases (tr : List Event) : List Event := tr.filterMap Event.init_release

/-- An environment in which `clCreateCommandQueue` fails. -/
def init_env_queue_fails : InitEnv :=
  { platform_id := 1, platform_err := 0, device_id := 2, device_err := 0,
    context := 3, context_err := 0, command_queue := 0, queue_err := -5 }

/-- A context structure before `cl_init`. -/
def ctx_blank : CLContext :=
  { platform_id := 0, device_id := 0, context := 0, command_queue := 0 }

/-! ### Waiting for the device -/

/-- The command a call leaves running on the device when it returns: a launch that was
enqueued, or a device-to-host copy that was enqueued non-blocking.  A blocking copy has
completed when the call returns. -/
@[simp] def Event.leaves_running : Event → Option Handle
  | .clEnqueueNDRangeKernel q _ _ _ _ err => if err = CL_SUCCESS then some q else none
  | .clEnqueueReadBuffer q _ blocking _ _ _ err =>
    if err = CL_SUCCESS ∧ blocking = false then some q else none
  | _ => none

/-- The commands not known to have completed after one more call, `pending` being those
before it, each with its queue: an enqueued command joins them, and `clFinish q` returns
only when every command enqueued on `q` has completed.  Nothing else is assumed to
complete a command. -/
def unfinished_step (pending : List (Handle × Event)) (e : Event) : List (Handle × Event) :=
  match e with
  | .clFinish q => pending.filter (fun c => decide (c.1 ≠ q))
  | _ =>
    match e.leaves_running with
    | some q => pending ++ [(q, e)]
    | none => pending

/-- The commands not known to have completed at the end of an event sequence. -/
def unfinished (tr : List Event) : List (Handle × Event) := tr.foldl unfinished_step []

/-- No descriptor asks for read-back: an input buffer and a device-resident result. -/
def bufs_no_readback : List CLBufferDesc :=
  [ { host_ptr := 10, size := 16, flags := CL_MEM_READ_ONLY, read_back := 0 },
    { host_ptr := 0, size := 16, flags := CL_MEM_READ_WRITE, read_back := 0 } ]

/-! ## `vector.c`, `replace_missing.c`: the work sizes -/

/-- The constant `local_size` (vector.c 93, replace_missing.c 56). -/
def local_size : Nat := 256

/-- The conversion `(size_t)n` of an `int`. -/
def to_size_t (n : Int) : Nat := (n % (SIZE_MOD : Int)).toNat

/-- The expression `((size_t)n + local_size - 1) / local_size * local_size` for
`global_size` (vector.c 94-95, replace_missing.c 57-58), every operation in `size_t`. -/
def global_size (n : Int) : Nat :=
  ((((to_size_t n + local_size) % SIZE_MOD + SIZE_MOD - 1) % SIZE_MOD) / local_size
    * local_size) % SIZE_MOD

/-! ## The loops -/

theorem alloc_loop_ok (env : Env) (ctx : CLContext) (ds : List CLBufferDesc) :
    ∀ (i : Nat) (mem : List Handle),
      (∀ j, j < ds.length → env.buffer_err (i + j) = CL_SUCCESS) →
      (alloc_loop env ctx ds i mem).1 = create_events env ctx ds i ∧
      (alloc_loop env ctx ds i mem).2.2 = true := by
  induction ds with
  | nil => intro i mem _; simp [alloc_loop, create_events]
  | cons d ds ih =>
    intro i mem h
    have h0 : env.buffer_err i = CL_SUCCESS := by simpa using h 0 (by simp)
    have ht := ih (i + 1) (mem.set i (env.buffer i)) (fun j hj => by
      have := h (j + 1) (by simpa using hj)
      rwa [show i + (j + 1) = i + 1 + j by omega] at this)
    simp only [alloc_loop, h0, ne_eq, not_true_eq_false, if_false, create_events, create_event]
    exact ⟨by rw [ht.1], ht.2⟩

theorem alloc_loop_fail (env : Env) (ctx : CLContext) (ds : List CLBufferDesc) :
    ∀ (i j : Nat) (mem : List Handle), j < ds.length →
      (∀ k, k < j → env.buffer_err (i + k) = CL_SUCCESS) →
      env.buffer_err (i + j) ≠ CL_SUCCESS →
      (alloc_loop env ctx ds i mem).1 = create_events env ctx (ds.take (j + 1)) i ++
        [Event.fprintf_stderr ("[OpenCL] clCreateBuffer failed for buffer " ++ toString (i + j)
          ++ " (code " ++ toString (env.buffer_err (i + j)) ++ ")\n")] ∧
      (alloc_loop env ctx ds i mem).2.2 = false := by
  induction ds with
  | nil => intro i j mem hj; simp at hj
  | cons d ds ih =>
    intro i j mem hj hk he
    cases j with
    | zero =>
      simp only [Nat.add_zero] at he
      simp [alloc_loop, he, create_events, create_event]
    | succ j =>
      have h0 : env.buffer_err i = CL_SUCCESS := by simpa using hk 0 (by omega)
      have ht := ih (i + 1) j (mem.set i (env.buffer i)) (by simpa using hj)
        (fun k hkj => by
          have := hk (k + 1) (by omega)
          rwa [show i + (k + 1) = i + 1 + k by omega] at this)
        (by rwa [show i + (j + 1) = i + 1 + j by omega] at he)
      simp only [alloc_loop, h0, ne_eq, not_true_eq_false, if_false, create_events,
        create_event, List.take_succ_cons, List.cons_append]
      rw [show i + (j + 1) = i + 1 + j by omega]
      exact ⟨by rw [ht.1], ht.2⟩

theorem mem_after_set (env : Env) (n i : Nat) (h : i < n) :
    (mem_after env n i).set i (env.buffer i) = mem_after env n (i + 1) := by
  unfold mem_after
  obtain ⟨m, hm⟩ : ∃ m, n - i = m + 1 := ⟨n - i - 1, by omega⟩
  have hm2 : n - (i + 1) = m := by omega
  rw [hm, hm2, List.set_append]
  simp [List.replicate_succ, List.range_succ]

theorem alloc_loop_store (env : Env) (ctx : CLContext) (n : Nat) (ds : List CLBufferDesc) :
    ∀ (i : Nat), i + ds.length = n →
      ((∀ j, j < ds.length → env.buffer_err (i + j) = CL_SUCCESS) →
        (alloc_loop env ctx ds i (mem_after env n i)).2.1 = mem_after env n n) ∧
      ∀ j, j < ds.length → (∀ k, k < j → env.buffer_err (i + k) = CL_SUCCESS) →
        env.buffer_err (i + j) ≠ CL_SUCCESS →
        (alloc_loop env ctx ds i (mem_after env n i)).2.1 = mem_after env n (i + j + 1) := by
  induction ds with
  | nil =>
    intro i hi
    simp at hi
    subst hi
    simp [alloc_loop]
  | cons d ds ih =>
    intro i hi
    simp only [List.length_cons] at hi
    have hlt : i < n := by omega
    have ht := ih (i + 1) (by omega)
    constructor
    · intro h
      have h0 : env.buffer_err i = CL_SUCCESS := by simpa using h 0 (by simp)
      simp only [alloc_loop, h0, ne_eq, not_true_eq_false, if_false, mem_after_set env n i hlt]
      exact ht.1 (fun j hj => by
        have := h (j + 1) (by simpa using hj)
        rwa [show i + (j + 1) = i + 1 + j by omega] at this)
    · intro j hj hk he
      cases j with
      | zero =>
        simp only [Nat.add_zero] at he
        simp [alloc_loop, he, mem_after_set env n i hlt]
      | succ j =>
        have h0 : env.buffer_err i = CL_SUCCESS := by simpa using hk 0 (by omega)
        simp only [alloc_loop, h0, ne_eq, not_true_eq_false, if_false,
          mem_after_set env n i hlt]
        rw [show i + (j + 1) + 1 = i + 1 + j + 1 by omega]
        exact ht.2 j (by simpa using hj)
          (fun k hkj => by
            have := hk (k + 1) (by omega)
            rwa [show i + (k + 1) = i + 1 + k by omega] at this)
          (by rwa [show i + (j + 1) = i + 1 + j by omega] at he)

theorem first_failure (p : Nat → Prop) (n : Nat)
    (h : ¬ ∀ j, j < n → p j) : ∃ j, j < n ∧ (∀ k, k < j → p k) ∧ ¬ p j := by
  classical
  have hex : ∃ j, j < n ∧ ¬ p j := by
    by_contra hc
    exact h (fun j hj => by
      by_contra hp
      exact hc ⟨j, hj, hp⟩)
  refine ⟨Nat.find hex, (Nat.find_spec hex).1, fun k hk => ?_, (Nat.find_spec hex).2⟩
  by_contra hp
  have hkn : k < n := lt_trans hk (Nat.find_spec hex).1
  exact Nat.find_min hex hk ⟨hkn, hp⟩

theorem read_loop_ok (env : Env) (ctx : CLContext) (n : Nat) (mem : List Handle)
    (ds : List CLBufferDesc) :
    ∀ (i : Nat),
      (∀ j (hj : j < ds.length), wants_read (ds.get ⟨j, hj⟩) →
        env.read_err (i + j) = CL_SUCCESS) →
      read_loop env ctx n mem ds i = (read_events env ctx n mem ds i, true) := by
  induction ds with
  | nil => intro i _; simp [read_loop, read_events]
  | cons d ds ih =>
    intro i h
    have ht := ih (i + 1) (fun j hj hw => by
      have := h (j + 1) (by simpa using hj) (by simpa using hw)
      rwa [show i + (j + 1) = i + 1 + j by omega] at this)
    by_cases hw : wants_read d
    · have h0 : env.read_err i = CL_SUCCESS := by simpa using h 0 (by simp) (by simpa using hw)
      have hw2 : ¬ (d.read_back = 0 ∨ d.host_ptr = 0) := hw
      simp only [read_loop, read_events, hw, hw2, if_false, if_true, h0, ne_eq,
        not_true_eq_false, ht, read_event]
    · have hw2 : d.read_back = 0 ∨ d.host_ptr = 0 := by
        unfold wants_read at hw
        exact not_not.1 hw
      simp only [read_loop, read_events, hw, hw2, if_false, if_true, ht]

theorem read_loop_fail (env : Env) (ctx : CLContext) (n : Nat) (mem : List Handle)
    (ds : List CLBufferDesc) :
    ∀ (i j : Nat) (hj : j < ds.length),
      (∀ k (hk : k < ds.length), k < j → wants_read (ds.get ⟨k, hk⟩) →
        env.read_err (i + k) = CL_SUCCESS) →
      wants_read (ds.get ⟨j, hj⟩) → env.read_err (i + j) ≠ CL_SUCCESS →
      read_loop env ctx n mem ds i = (read_events env ctx n mem (ds.take (j + 1)) i ++
        [Event.fprintf_stderr ("[OpenCL] clEnqueueReadBuffer failed for buffer "
          ++ toString (i + j) ++ " (code " ++ toString (env.read_err (i + j)) ++ ")
")],
        false) := by
  induction ds with
  | nil => intro i j hj; simp at hj
  | cons d ds ih =>
    intro i j hj hk hw he
    cases j with
    | zero =>
      simp only [Nat.add_zero] at he
      have hw1 : wants_read d := by simpa using hw
      have hw2 : ¬ (d.read_back = 0 ∨ d.host_ptr = 0) := hw1
      simp [read_loop, read_events, hw1, hw2, he, read_event]
    | succ j =>
      have ht := ih (i + 1) j (by simpa using hj)
        (fun k hk1 hkj hwk => by
          have := hk (k + 1) (by simpa using hk1) (by omega) (by simpa using hwk)
          rwa [show i + (k + 1) = i + 1 + k by omega] at this)
        (by simpa using hw)
        (by rwa [show i + (j + 1) = i + 1 + j by omega] at he)
      rw [show i + (j + 1) = i + 1 + j by omega]
      by_cases hw1 : wants_read d
      · have h0 : env.read_err i = CL_SUCCESS := by
          simpa using hk 0 (by simp) (by omega) (by simpa using hw1)
        have hw2 : ¬ (d.read_back = 0 ∨ d.host_ptr = 0) := hw1
        simp only [read_loop, read_events, hw1, hw2, if_false, if_true, h0, ne_eq,
          not_true_eq_false, ht, read_event, List.take_succ_cons, List.cons_append]
      · have hw2 : d.read_back = 0 ∨ d.host_ptr = 0 := by
          unfold wants_read at hw1
          exact not_not.1 hw1
        simp only [read_loop, read_events, hw1, hw2, if_false, if_true, ht,
          List.take_succ_cons]

theorem mem_after_zero (env : Env) (n : Nat) : mem_after env n 0 = List.replicate n 0 := by
  simp [mem_after]

theorem body_elim (env : Env) (ctx : CLContext) (kd : CLKernelDesc)
    (bufs : List CLBufferDesc) (bind_args : CLArgBindFn) (user_data : Handle)
    (motive : List Event × Locals → Prop)
    (h_calloc : env.device_bufs = 0 →
      motive ([Event.calloc bufs.length env.device_bufs,
          Event.fprintf_stderr "[OpenCL] Out of memory for buffer handle array\n"],
        { ret := -1, source := 0, program := 0, kernel := 0, device_bufs := 0, mem := [] }))
    (h_load : env.device_bufs ≠ 0 → env.loader_err ≠ 0 →
      motive ([Event.calloc bufs.length env.device_bufs,
          Event.load_kernel_source kd.source_path env.source env.loader_err,
          Event.fprintf_stderr ("[OpenCL] Could not load kernel source: "
            ++ kd.source_path ++ "\n")],
        { ret := -1, source := env.source, program := 0, kernel := 0,
          device_bufs := env.device_bufs, mem := List.replicate bufs.length 0 }))
    (h_program : env.device_bufs ≠ 0 → env.loader_err = 0 → env.program_err ≠ CL_SUCCESS →
      motive ([Event.calloc bufs.length env.device_bufs,
          Event.load_kernel_source kd.source_path env.source env.loader_err,
          Event.clCreateProgramWithSource ctx.context env.source env.program env.program_err,
          Event.fprintf_stderr
            (CL_CHECK_text "clCreateProgramWithSource failed" env.program_err)],
        { ret := -1, source := env.source, program := env.program, kernel := 0,
          device_bufs := env.device_bufs, mem := List.replicate bufs.length 0 }))
    (h_build : env.device_bufs ≠ 0 → env.loader_err = 0 → env.program_err = CL_SUCCESS →
      env.build_err ≠ CL_SUCCESS →
      motive ([Event.calloc bufs.length env.device_bufs,
          Event.load_kernel_source kd.source_path env.source env.loader_err,
          Event.clCreateProgramWithSource ctx.context env.source env.program env.program_err,
          Event.clBuildProgram env.program ctx.device_id env.build_err]
          ++ print_build_log env env.program ctx.device_id,
        { ret := -1, source := env.source, program := env.program, kernel := 0,
          device_bufs := env.device_bufs, mem := List.replicate bufs.length 0 }))
    (h_kernel : env.device_bufs ≠ 0 → env.loader_err = 0 → env.program_err = CL_SUCCESS →
      env.build_err = CL_SUCCESS → env.kernel_err ≠ CL_SUCCESS →
      motive (setup_events env ctx kd bufs.length ++
          [Event.fprintf_stderr (CL_CHECK_text "clCreateKernel failed" env.kernel_err)],
        locals_after env bufs.length 0 (-1)))
    (h_alloc : env.setup_ok → ∀ j, j < bufs.length →
      (∀ k, k < j → env.buffer_err k = CL_SUCCESS) → env.buffer_err j ≠ CL_SUCCESS →
      motive (setup_events env ctx kd bufs.length ++
          (create_events env ctx (bufs.take (j + 1)) 0 ++
          [Event.fprintf_stderr ("[OpenCL] clCreateBuffer failed for buffer " ++ toString j
            ++ " (code " ++ toString (env.buffer_err j) ++ ")\n")]),
        locals_after env bufs.length (j + 1) (-1)))
    (h_bind : env.setup_ok → (∀ j, j < bufs.length → env.buffer_err j = CL_SUCCESS) →
      bind_args env.kernel (mem_after env bufs.length bufs.length) (bufs.length : Int)
        user_data ≠ 0 →
      motive (setup_events env ctx kd bufs.length ++ (create_events env ctx bufs 0 ++
          [bind_event env bufs.length bind_args user_data,
           Event.fprintf_stderr "[OpenCL] Argument binding callback returned error\n"]),
        locals_after env bufs.length bufs.length (-1)))
    (h_launch : env.setup_ok → (∀ j, j < bufs.length → env.buffer_err j = CL_SUCCESS) →
      bind_args env.kernel (mem_after env bufs.length bufs.length) (bufs.length : Int)
        user_data = 0 →
      env.enqueue_err ≠ CL_SUCCESS →
      motive (setup_events env ctx kd bufs.length ++ (create_events env ctx bufs 0 ++
          [bind_event env bufs.length bind_args user_data, launch_event env ctx kd,
           Event.fprintf_stderr
             (CL_CHECK_text "clEnqueueNDRangeKernel failed" env.enqueue_err)]),
        locals_after env bufs.length bufs.length (-1)))
    (h_read : env.setup_ok → (∀ j, j < bufs.length → env.buffer_err j = CL_SUCCESS) →
      bind_args env.kernel (mem_after env bufs.length bufs.length) (bufs.length : Int)
        user_data = 0 →
      env.enqueue_err = CL_SUCCESS →
      ∀ j (hj : j < bufs.length),
      (∀ k (hk : k < bufs.length), k < j → wants_read (bufs.get ⟨k, hk⟩) →
        env.read_err k = CL_SUCCESS) →
      wants_read (bufs.get ⟨j, hj⟩) → env.read_err j ≠ CL_SUCCESS →
      motive (setup_events env ctx kd bufs.length ++ (create_events env ctx bufs 0 ++
          ([bind_event env bufs.length bind_args user_data, launch_event env ctx kd] ++
          (read_events env ctx bufs.length (mem_after env bufs.length bufs.length)
            (bufs.take (j + 1)) 0 ++
          [Event.fprintf_stderr ("[OpenCL] clEnqueueReadBuffer failed for buffer "
            ++ toString j ++ " (code " ++ toString (env.read_err j) ++ ")\n")]))),
        locals_after env bufs.length bufs.length (-1)))
    (h_success : env.setup_ok → (∀ j, j < bufs.length → env.buffer_err j = CL_SUCCESS) →
      bind_args env.kernel (mem_after env bufs.length bufs.length) (bufs.length : Int)
        user_data = 0 →
      env.enqueue_err = CL_SUCCESS →
      (∀ k (hk : k < bufs.length), wants_read (bufs.get ⟨k, hk⟩) →
        env.read_err k = CL_SUCCESS) →
      motive (setup_events env ctx kd bufs.length ++ (create_events env ctx bufs 0 ++
          ([bind_event env bufs.length bind_args user_data, launch_event env ctx kd] ++
          (read_events env ctx bufs.length (mem_after env bufs.length bufs.length) bufs 0 ++
          [Event.clFinish ctx.command_queue]))),
        locals_after env bufs.length bufs.length 0)) :
    motive (cl_run_kernel_body env ctx kd bufs bind_args user_data) := by
  unfold cl_run_kernel_body
  by_cases h1 : env.device_bufs = 0
  · simpa only [h1, if_true] using h_calloc h1
  by_cases h2 : env.loader_err = 0
  swap
  · simpa only [h1, h2, if_true, if_false, ne_eq, not_false_eq_true, List.cons_append,
      List.nil_append] using h_load h1 h2
  by_cases h3 : env.program_err = CL_SUCCESS
  swap
  · simpa only [h1, h2, h3, if_true, if_false, ne_eq, not_false_eq_true, not_true_eq_false,
      List.cons_append, List.nil_append] using h_program h1 h2 h3
  by_cases h4 : env.build_err = CL_SUCCESS
  swap
  · simpa only [h1, h2, h3, h4, if_true, if_false, ne_eq, not_false_eq_true,
      not_true_eq_false, List.cons_append, List.nil_append] using h_build h1 h2 h3 h4
  by_cases h5 : env.kernel_err = CL_SUCCESS
  swap
  · simpa only [h1, h2, h3, h4, h5, if_true, if_false, ne_eq, not_false_eq_true,
      not_true_eq_false, List.cons_append, List.nil_append, setup_events, locals_after,
      mem_after_zero] using h_kernel h1 h2 h3 h4 h5
  have hs : env.setup_ok := ⟨h1, h2, h3, h4, h5⟩
  simp only [h1, h2, h3, h4, h5, if_false, ne_eq, not_true_eq_false, ← mem_after_zero env]
  by_cases h6 : ∀ j, j < bufs.length → env.buffer_err j = CL_SUCCESS
  swap
  · obtain ⟨j, hj, hk, he⟩ := first_failure _ _ h6
    have ha := alloc_loop_fail env ctx bufs 0 j (mem_after env bufs.length 0) hj
      (by simpa using hk) (by simpa using he)
    have hm := (alloc_loop_store env ctx bufs.length bufs 0 (by simp)).2 j hj
      (by simpa using hk) (by simpa using he)
    simp only [Nat.zero_add] at ha hm
    simp only [ha.1, ha.2, hm, if_true]
    simpa only [List.append_assoc, List.cons_append, List.nil_append, setup_events,
      locals_after, h2, h3, h4, h5] using h_alloc hs j hj hk he
  have ha := alloc_loop_ok env ctx bufs 0 (mem_after env bufs.length 0) (by simpa using h6)
  have hm := (alloc_loop_store env ctx bufs.length bufs 0 (by simp)).1 (by simpa using h6)
  simp only [ha.1, ha.2, hm, Bool.true_eq_false, if_false]
  by_cases h7 : bind_args env.kernel (mem_after env bufs.length bufs.length)
      (bufs.length : Int) user_data = 0
  swap
  · simp only [h7, if_true, not_false_eq_true]
    simpa only [List.append_assoc, List.cons_append, List.nil_append, setup_events,
      bind_event, locals_after, h2, h3, h4, h5] using h_bind hs h6 h7
  by_cases h8 : env.enqueue_err = CL_SUCCESS
  swap
  · simp only [h7, h8, if_true, if_false, not_false_eq_true, not_true_eq_false]
    simpa only [List.append_assoc, List.cons_append, List.nil_append, setup_events,
      bind_event, launch_event, locals_after, h7, h2, h3, h4, h5] using h_launch hs h6 h7 h8
  simp only [h7, h8, if_false, not_true_eq_false]
  by_cases h9 : ∀ k, k < bufs.length →
      (∀ (hk : k < bufs.length), wants_read (bufs.get ⟨k, hk⟩) → env.read_err k = CL_SUCCESS)
  swap
  · obtain ⟨j, hj, hk, he⟩ := first_failure _ _ h9
    simp only [not_forall] at he
    obtain ⟨hj2, hw, he⟩ := he
    have hr := read_loop_fail env ctx bufs.length (mem_after env bufs.length bufs.length)
      bufs 0 j hj (fun k hk1 hkj hwk => by simpa using hk k hkj hk1 hwk) hw (by simpa using he)
    simp only [Nat.zero_add] at hr
    simp only [hr, if_true]
    simpa only [List.append_assoc, List.cons_append, List.nil_append, setup_events,
      bind_event, launch_event, locals_after, h7, h2, h3, h4, h5, h8] using
      h_read hs h6 h7 h8 j hj (fun k hk1 hkj hwk => hk k hkj hk1 hwk) hw he
  have hr := read_loop_ok env ctx bufs.length (mem_after env bufs.length bufs.length) bufs 0
    (fun j hj hw => by simpa using h9 j hj hj hw)
  simp only [hr, Bool.true_eq_false, if_false]
  simpa only [List.append_assoc, List.cons_append, List.nil_append, setup_events,
    bind_event, launch_event, locals_after, h7, h2, h3, h4, h5, h8] using
    h_success hs h6 h7 h8 (fun k hk hw => h9 k hk hk hw)

/-! ## The release loop -/

theorem mem_after_getD (env : Env) (n cnt j : Nat) :
    (mem_after env n cnt).getD j 0 = if j < cnt then env.buffer j else 0 := by
  unfold mem_after
  by_cases h : j < cnt
  · simp [List.getD_eq_getElem?_getD, List.getElem?_append, h]
  · simp only [List.getD_eq_getElem?_getD, List.getElem?_append, List.length_map,
      List.length_range, h, if_false, List.getElem?_replicate]
    split <;> rfl

theorem release_loop_null (mem : List Handle) (k : Nat) : release_loop 0 mem k = [] := by
  induction k with
  | zero => rfl
  | succ k ih => simp [release_loop, ih]

theorem release_loop_eq (p : Handle) (hp : p ≠ 0) (mem : List Handle) (k : Nat) :
    release_loop p mem k =
      (((List.range k).filter (fun j => mem.getD j 0 ≠ 0)).map
        (fun j => Event.clReleaseMemObject (mem.getD j 0))).reverse := by
  induction k with
  | zero => rfl
  | succ k ih =>
    simp only [release_loop, ih, List.range_succ, List.filter_append, List.map_append,
      List.reverse_append, hp, ne_eq, not_false_eq_true, true_and]
    by_cases h : mem.getD k 0 = 0
    · simp only [List.getD_eq_getElem?_getD] at h
      simp [List.filter_cons, h]
    · simp only [List.getD_eq_getElem?_getD] at h
      simp [List.filter_cons, h]

theorem filter_range_lt (q : Nat → Bool) (cnt d : Nat) :
    (List.range (cnt + d)).filter (fun j => decide (j < cnt) && q j) =
      (List.range cnt).filter q := by
  induction d with
  | zero =>
    simp only [Nat.add_zero]
    apply List.filter_congr
    intro j hj
    simp [List.mem_range.1 hj]
  | succ d ih =>
    rw [← Nat.add_assoc, List.range_succ, List.filter_append, ih]
    simp

theorem release_loop_mem_after (env : Env) (p : Handle) (hp : p ≠ 0) (n cnt : Nat)
    (h : cnt ≤ n) :
    release_loop p (mem_after env n cnt) n =
      (((List.range cnt).filter (fun j => env.buffer j ≠ 0)).map
        (fun j => Event.clReleaseMemObject (env.buffer j))).reverse := by
  rw [release_loop_eq p hp]
  obtain ⟨d, rfl⟩ : ∃ d, n = cnt + d := ⟨n - cnt, by omega⟩
  have h1 : (List.range (cnt + d)).filter (fun j => (mem_after env (cnt + d) cnt).getD j 0 ≠ 0)
      = (List.range cnt).filter (fun j => env.buffer j ≠ 0) := by
    rw [← filter_range_lt (fun j => decide (env.buffer j ≠ 0)) cnt d]
    apply List.filter_congr
    intro j _
    rw [mem_after_getD]
    by_cases hj : j < cnt <;> simp [hj]
  rw [h1]
  congr 1
  apply List.map_congr_left
  intro j hj
  have hj2 : j < cnt := List.mem_range.1 (List.mem_filter.1 hj).1
  rw [mem_after_getD, if_pos hj2]

/-! ## Projections of the loops -/

theorem buffer_needs_upload_iff (d : CLBufferDesc) :
    buffer_needs_upload d = true ↔
      (d.host_ptr ≠ 0 ∧ (d.flags &&& CL_MEM_READ_ONLY ≠ 0 ∨ d.flags &&& CL_MEM_READ_WRITE ≠ 0)) := by
  unfold buffer_needs_upload
  by_cases h : d.host_ptr = 0 <;> simp [h]

theorem create_call_eq (d : CLBufferDesc) :
    (alloc_flags d, d.size, alloc_host_ptr d) = stated_create d := by
  unfold alloc_flags alloc_host_ptr stated_create
  by_cases h : buffer_needs_upload d = true
  · rw [if_pos h, if_pos h, if_pos ((buffer_needs_upload_iff d).1 h)]
  · rw [if_neg h, if_neg h, if_neg (fun h2 => h ((buffer_needs_upload_iff d).2 h2))]

theorem release_loop_mem (p : Handle) (mem : List Handle) (k : Nat) :
    ∀ e ∈ release_loop p mem k, ∃ h, e = Event.clReleaseMemObject h := by
  induction k with
  | zero => simp [release_loop]
  | succ k ih =>
    intro e he
    simp only [release_loop, List.mem_append] at he
    rcases he with he | he
    · split at he
      · simp at he; exact ⟨_, he⟩
      · simp at he
    · exact ih e he

theorem filterMap_release_loop {β : Type} (f : Event → Option β)
    (hf : ∀ h, f (Event.clReleaseMemObject h) = none) (p : Handle) (mem : List Handle)
    (k : Nat) : (release_loop p mem k).filterMap f = [] := by
  rw [List.filterMap_eq_nil_iff]
  intro e he
  obtain ⟨h, rfl⟩ := release_loop_mem p mem k e he
  exact hf h

theorem create_events_mem (env : Env) (ctx : CLContext) (ds : List CLBufferDesc) :
    ∀ (i : Nat), ∀ e ∈ create_events env ctx ds i,
      ∃ j d, i ≤ j ∧ j < i + ds.length ∧ e = create_event env ctx j d := by
  induction ds with
  | nil => intro i e he; simp [create_events] at he
  | cons d ds ih =>
    intro i e he
    simp only [create_events, List.mem_cons] at he
    rcases he with he | he
    · exact ⟨i, d, le_refl _, by simp, he⟩
    · obtain ⟨j, d2, h1, h2, h3⟩ := ih (i + 1) e he
      exact ⟨j, d2, by omega, by simp only [List.length_cons]; omega, h3⟩

theorem read_events_mem (env : Env) (ctx : CLContext) (n : Nat) (mem : List Handle)
    (ds : List CLBufferDesc) :
    ∀ (i : Nat), ∀ e ∈ read_events env ctx n mem ds i,
      ∃ j d, i ≤ j ∧ j < i + ds.length ∧ e = read_event env ctx n mem j d := by
  induction ds with
  | nil => intro i e he; simp [read_events] at he
  | cons d ds ih =>
    intro i e he
    simp only [read_events] at he
    have key : ∀ e ∈ read_events env ctx n mem ds (i + 1),
        ∃ j d2, i ≤ j ∧ j < i + (d :: ds).length ∧ e = read_event env ctx n mem j d2 := by
      intro e he
      obtain ⟨j, d2, h1, h2, h3⟩ := ih (i + 1) e he
      exact ⟨j, d2, by omega, by simp only [List.length_cons]; omega, h3⟩
    split at he
    · simp only [List.mem_cons] at he
      rcases he with he | he
      · exact ⟨i, d, le_refl _, by simp, he⟩
      · exact key e he
    · exact key e he

theorem filterMap_create_events {β : Type} (f : Event → Option β)
    (hc : ∀ c fl s hp h err, f (Event.clCreateBuffer c fl s hp h err) = none)
    (env : Env) (ctx : CLContext) (ds : List CLBufferDesc) (i : Nat) :
    (create_events env ctx ds i).filterMap f = [] := by
  rw [List.filterMap_eq_nil_iff]
  intro e he
  obtain ⟨j, d, _, _, rfl⟩ := create_events_mem env ctx ds i e he
  exact hc _ _ _ _ _ _

theorem filterMap_read_events {β : Type} (f : Event → Option β)
    (hc : ∀ q b bl o s p err, f (Event.clEnqueueReadBuffer q b bl o s p err) = none)
    (env : Env) (ctx : CLContext) (n : Nat) (mem : List Handle) (ds : List CLBufferDesc)
    (i : Nat) : (read_events env ctx n mem ds i).filterMap f = [] := by
  rw [List.filterMap_eq_nil_iff]
  intro e he
  obtain ⟨j, d, _, _, rfl⟩ := read_events_mem env ctx n mem ds i e he
  exact hc _ _ _ _ _ _ _

theorem create_calls_create_events (env : Env) (ctx : CLContext) (ds : List CLBufferDesc) :
    ∀ (i : Nat), (create_events env ctx ds i).filterMap Event.create_call
      = ds.map stated_create := by
  induction ds with
  | nil => intro i; simp [create_events]
  | cons d ds ih =>
    intro i
    simp [create_events, create_event, create_call_eq, ih (i + 1)]

theorem filterMap_cleanup {β : Type} (f : Event → Option β)
    (h1 : ∀ h, f (Event.clReleaseMemObject h) = none) (h2 : ∀ h, f (Event.free h) = none)
    (h3 : ∀ h, f (Event.clReleaseKernel h) = none)
    (h4 : ∀ h, f (Event.clReleaseProgram h) = none) (n : Nat) (st : Locals) :
    (cleanup n st).filterMap f = [] := by
  unfold cleanup
  simp only [List.filterMap_append, filterMap_release_loop f h1, apply_ite (List.filterMap f),
    List.filterMap_cons, List.filterMap_nil, h2, h3, h4, ite_self, List.append_nil]

theorem filterMap_print_build_log {β : Type} (f : Event → Option β)
    (h1 : ∀ p d a b c, f (Event.clGetProgramBuildInfo p d a b c) = none)
    (h2 : ∀ s h, f (Event.malloc s h) = none) (h3 : ∀ h, f (Event.free h) = none)
    (h4 : ∀ t, f (Event.fprintf_stderr t) = none) (env : Env) (p d : Handle) :
    (print_build_log env p d).filterMap f = [] := by
  unfold print_build_log
  simp only [apply_ite (List.filterMap f), List.filterMap_cons, List.filterMap_nil, h1, h2,
    h3, h4, ite_self]


/-! ## Resources -/

theorem acquired_create_events (env : Env) (ctx : CLContext) (ds : List CLBufferDesc) :
    ∀ (i : Nat), (create_events env ctx ds i).filterMap Event.acquires =
      ((List.range' i ds.length).filter (fun j => env.buffer_err j = CL_SUCCESS)).map
        (fun j => (Kind.buffer, env.buffer j)) := by
  induction ds with
  | nil => intro i; simp [create_events]
  | cons d ds ih =>
    intro i
    simp only [create_events, create_event, List.filterMap_cons, Event.acquires, ih (i + 1),
      List.length_cons, List.range'_succ, List.filter_cons]
    by_cases h : env.buffer_err i = CL_SUCCESS <;> simp [h]

theorem acquired_of_nil (k : Kind) : acquired_of k [] = [] := rfl

theorem acquired_of_append (k : Kind) (a b : List Event) :
    acquired_of k (a ++ b) = acquired_of k a ++ acquired_of k b := by
  simp [acquired_of, acquired]

theorem acquired_of_cons (k : Kind) (e : Event) (tr : List Event) :
    acquired_of k (e :: tr) =
      (match e.acquires with
        | some r => if r.1 = k then [r.2] else []
        | none => []) ++ acquired_of k tr := by
  simp only [acquired_of, acquired, List.filterMap_cons]
  cases h : e.acquires with
  | none => simp
  | some r => by_cases hr : r.1 = k <;> simp [hr]

theorem acquired_of_buffer_create_events (env : Env) (ctx : CLContext)
    (ds : List CLBufferDesc) (i : Nat) :
    acquired_of Kind.buffer (create_events env ctx ds i) =
      ((List.range' i ds.length).filter (fun j => env.buffer_err j = CL_SUCCESS)).map
        env.buffer := by
  simp only [acquired_of, acquired, acquired_create_events, List.filterMap_map,
    Function.comp_def, if_true]
  exact List.filterMap_eq_map env.buffer ▸ rfl

theorem acquired_of_create_events (env : Env) (ctx : CLContext) (ds : List CLBufferDesc)
    (i : Nat) (k : Kind) (hk : k ≠ Kind.buffer) :
    acquired_of k (create_events env ctx ds i) = [] := by
  simp [acquired_of, acquired, acquired_create_events, List.filterMap_map, Function.comp_def,
    Ne.symm hk]

theorem acquired_of_read_events (env : Env) (ctx : CLContext) (n : Nat) (mem : List Handle)
    (ds : List CLBufferDesc) (i : Nat) (k : Kind) :
    acquired_of k (read_events env ctx n mem ds i) = [] := by
  simp [acquired_of, acquired, filterMap_read_events]

theorem release_calls_append (a b : List Event) :
    release_calls (a ++ b) = release_calls a ++ release_calls b := by
  simp [release_calls]

theorem release_calls_cons (e : Event) (tr : List Event) :
    release_calls (e :: tr) = (match e.release_call with
      | some r => [r]
      | none => []) ++ release_calls tr := by
  simp only [release_calls, List.filterMap_cons]
  cases h : e.release_call <;> simp

theorem release_calls_nil : release_calls [] = [] := rfl

theorem release_calls_reverse (l : List Event) :
    release_calls l.reverse = (release_calls l).reverse := by
  simp [release_calls, List.filterMap_reverse]

theorem release_calls_create_events (env : Env) (ctx : CLContext) (ds : List CLBufferDesc)
    (i : Nat) : release_calls (create_events env ctx ds i) = [] := by
  simp [release_calls, filterMap_create_events]

theorem release_calls_read_events (env : Env) (ctx : CLContext) (n : Nat) (mem : List Handle)
    (ds : List CLBufferDesc) (i : Nat) :
    release_calls (read_events env ctx n mem ds i) = [] := by
  simp [release_calls, filterMap_read_events]

theorem release_calls_map_release (l : List Handle) :
    release_calls (l.map Event.clReleaseMemObject) = l.map Event.clReleaseMemObject := by
  induction l with
  | nil => rfl
  | cons h l ih => simp [release_calls_cons, ih]

theorem release_loop_acquired (env : Env) (ctx : CLContext) (p : Handle) (hp : p ≠ 0)
    (n : Nat) (ds : List CLBufferDesc) (hlen : ds.length ≤ n)
    (hc : ∀ i, i < ds.length → (env.buffer_err i = CL_SUCCESS ↔ env.buffer i ≠ 0)) :
    release_loop p (mem_after env n ds.length) n =
      (acquired_of Kind.buffer (create_events env ctx ds 0)).reverse.map
        Event.clReleaseMemObject := by
  rw [release_loop_mem_after env p hp n ds.length hlen, acquired_of_buffer_create_events,
    ← List.range_eq_range', List.map_reverse, List.map_map]
  congr 2
  apply List.filter_congr
  intro j hj
  have := hc j (List.mem_range.1 hj)
  simp [this]

theorem acquired_length (l : List (Kind × Handle)) :
    l.length =
      (l.filterMap (fun r => if r.1 = Kind.build_log then some r.2 else none)).length +
      ((l.filterMap (fun r => if r.1 = Kind.buffer then some r.2 else none)).length +
      ((l.filterMap (fun r => if r.1 = Kind.handle_array then some r.2 else none)).length +
      ((l.filterMap (fun r => if r.1 = Kind.kernel then some r.2 else none)).length +
      ((l.filterMap (fun r => if r.1 = Kind.program then some r.2 else none)).length +
      (l.filterMap (fun r => if r.1 = Kind.source_text then some r.2 else none)).length)))) := by
  induction l with
  | nil => rfl
  | cons r l ih =>
    obtain ⟨k, h⟩ := r
    cases k <;> simp [List.filterMap_cons] <;> omega

theorem outstanding_append (a b : List Event) :
    outstanding (a ++ b) = outstanding a + outstanding b := by
  simp only [outstanding, acquired, release_calls, List.filterMap_append, List.length_append,
    Nat.cast_add]
  ring

theorem teardown_releases (env : Env) (ctx : CLContext) (kd : CLKernelDesc)
    (bufs : List CLBufferDesc) (bind_args : CLArgBindFn) (user_data : Handle)
    (hc : env.conforms bufs.length) :
    release_calls (cl_run_kernel_body env ctx kd bufs bind_args user_data).1 =
      (acquired_of Kind.build_log
        (cl_run_kernel_body env ctx kd bufs bind_args user_data).1).map Event.free ∧
    release_calls (cleanup bufs.length
        (cl_run_kernel_body env ctx kd bufs bind_args user_data).2) =
      (acquired_of Kind.buffer
          (cl_run_kernel_body env ctx kd bufs bind_args user_data).1).reverse.map
        Event.clReleaseMemObject ++
      (acquired_of Kind.handle_array
          (cl_run_kernel_body env ctx kd bufs bind_args user_data).1).map Event.free ++
      (acquired_of Kind.kernel
          (cl_run_kernel_body env ctx kd bufs bind_args user_data).1).map
        Event.clReleaseKernel ++
      (acquired_of Kind.program
          (cl_run_kernel_body env ctx kd bufs bind_args user_data).1).map
        Event.clReleaseProgram ++
      (acquired_of Kind.source_text
          (cl_run_kernel_body env ctx kd bufs bind_args user_data).1).map Event.free ∧
    acquired (cleanup bufs.length
      (cl_run_kernel_body env ctx kd bufs bind_args user_data).2) = [] := by
  obtain ⟨hcp, hck, hcb⟩ := hc
  apply body_elim env ctx kd bufs bind_args user_data
    (fun r => release_calls r.1 = (acquired_of Kind.build_log r.1).map Event.free ∧
      release_calls (cleanup bufs.length r.2) =
        (acquired_of Kind.buffer r.1).reverse.map Event.clReleaseMemObject ++
        (acquired_of Kind.handle_array r.1).map Event.free ++
        (acquired_of Kind.kernel r.1).map Event.clReleaseKernel ++
        (acquired_of Kind.program r.1).map Event.clReleaseProgram ++
        (acquired_of Kind.source_text r.1).map Event.free ∧
      acquired (cleanup bufs.length r.2) = [])
  · intro h1
    simp [release_calls, acquired_of, acquired, cleanup, release_loop_null, h1]
  · intro h1 h2
    by_cases hs : env.source = 0 <;>
      simp [release_calls, acquired_of, acquired, cleanup, ← mem_after_zero env,
        release_loop_mem_after, h1, h2, hs]
  · intro h1 h2 h3
    have hp : env.program = 0 := by
      by_contra hne
      exact h3 (hcp.2 hne)
    by_cases hs : env.source = 0 <;>
      simp [release_calls, acquired_of, acquired, cleanup, ← mem_after_zero env,
        release_loop_mem_after, h1, h2, h3, hs, hp]
  · intro h1 h2 h3 h4
    have hp : env.program ≠ 0 := hcp.1 h3
    by_cases hs : env.source = 0 <;> by_cases hl : env.log = 0 <;>
      simp [release_calls, acquired_of, acquired, cleanup, ← mem_after_zero env,
        release_loop_mem_after, h1, h2, h3, h4, hs, hp, hl, print_build_log]
  · intro h1 h2 h3 h4 h5
    have hp : env.program ≠ 0 := hcp.1 h3
    have hk : env.kernel = 0 := by
      by_contra hne
      exact h5 (hck.2 hne)
    by_cases hs : env.source = 0 <;>
      simp [release_calls, acquired_of, acquired, cleanup, locals_after, setup_events,
        release_loop_mem_after, h1, h2, h3, h4, h5, hs, hp, hk]
  · intro hs j hj hk he
    obtain ⟨h1, h2, h3, h4, h5⟩ := hs
    have hp : env.program ≠ 0 := hcp.1 h3
    have hkn : env.kernel ≠ 0 := hck.1 h5
    have hlen : (List.take (j + 1) bufs).length = j + 1 := by
      rw [List.length_take]; omega
    have hrel := release_loop_acquired env ctx env.device_bufs h1 bufs.length
      (List.take (j + 1) bufs) (by omega) (fun i hi => hcb i (by omega))
    rw [hlen] at hrel
    by_cases hs : env.source = 0 <;>
      simp [release_calls_append, release_calls_cons, release_calls_nil, acquired_of_append,
        acquired_of_cons, acquired_of_nil, acquired_of_create_events, cleanup, locals_after,
        setup_events, hrel, release_calls_map_release, h1, h2, h3, h4, h5, hs, hp, hkn,
        acquired, filterMap_cleanup, release_calls_reverse, release_calls_create_events]
  all_goals
    intro hs hb
    intros
    obtain ⟨h1, h2, h3, h4, h5⟩ := hs
    have hp : env.program ≠ 0 := hcp.1 h3
    have hkn : env.kernel ≠ 0 := hck.1 h5
    have hrel := release_loop_acquired env ctx env.device_bufs h1 bufs.length
      bufs (le_refl _) hcb
    by_cases hs : env.source = 0 <;>
      simp [release_calls_append, release_calls_cons, release_calls_nil, acquired_of_append,
        acquired_of_cons, acquired_of_nil, acquired_of_create_events, cleanup, locals_after,
        setup_events, hrel, release_calls_map_release, h1, h2, h3, h4, h5, hs, hp, hkn,
        acquired, filterMap_cleanup, release_calls_reverse, release_calls_create_events,
        release_calls_read_events, acquired_of_read_events, bind_event, launch_event]

theorem invocation_outstanding (env : Env) (ctx : CLContext) (kd : CLKernelDesc)
    (bufs : List CLBufferDesc) (bind_args : CLArgBindFn) (user_data : Handle)
    (hc : env.conforms bufs.length) :
    outstanding (cl_run_kernel env ctx kd bufs bind_args user_data).1 = 0 := by
  obtain ⟨h1, h2, h3⟩ := teardown_releases env ctx kd bufs bind_args user_data hc
  have hl := acquired_length (acquired (cl_run_kernel_body env ctx kd bufs bind_args user_data).1)
  have e1 := congrArg List.length h1
  have e2 := congrArg List.length h2
  have e3 := congrArg List.length h3
  simp only [List.length_append, List.length_map, List.length_reverse, List.length_nil,
    acquired_of] at e1 e2 e3
  unfold cl_run_kernel
  simp only [outstanding_append]
  simp only [outstanding, e1, e2, e3]
  omega

theorem sequence_outstanding (ctx : CLContext) (invs : List Invocation)
    (hc : ∀ v ∈ invs, v.env.conforms v.bufs.length) :
    outstanding (run_sequence ctx invs) = 0 := by
  induction invs with
  | nil => rfl
  | cons v vs ih =>
    simp only [run_sequence, outstanding_append]
    rw [invocation_outstanding v.env ctx v.kd v.bufs v.bind_args v.user_data
      (hc v (List.mem_cons_self _ _)), ih (fun w hw => hc w (List.mem_cons_of_mem _ hw))]
    rfl

/-! ## Read-back -/

theorem create_events_take_succ (env : Env) (ctx : CLContext) (ds : List CLBufferDesc) :
    ∀ (i j : Nat) (hj : j < ds.length),
      create_events env ctx (ds.take (j + 1)) i =
        create_events env ctx (ds.take j) i ++ [create_event env ctx (i + j) (ds.get ⟨j, hj⟩)] := by
  induction ds with
  | nil => intro i j hj; simp at hj
  | cons d ds ih =>
    intro i j hj
    cases j with
    | zero => simp [create_events]
    | succ j =>
      have := ih (i + 1) j (by simpa using hj)
      simp only [List.take_succ_cons, create_events, this, List.cons_append, List.get_cons_succ]
      rw [show i + 1 + j = i + (j + 1) by omega]

theorem read_events_take_succ (env : Env) (ctx : CLContext) (n : Nat) (mem : List Handle)
    (ds : List CLBufferDesc) :
    ∀ (i j : Nat) (hj : j < ds.length), wants_read (ds.get ⟨j, hj⟩) →
      read_events env ctx n mem (ds.take (j + 1)) i =
        read_events env ctx n mem (ds.take j) i ++
          [read_event env ctx n mem (i + j) (ds.get ⟨j, hj⟩)] := by
  induction ds with
  | nil => intro i j hj; simp at hj
  | cons d ds ih =>
    intro i j hj hw
    cases j with
    | zero =>
      have hw1 : wants_read d := by simpa using hw
      simp [read_events, hw1]
    | succ j =>
      have := ih (i + 1) j (by simpa using hj) (by simpa using hw)
      simp only [List.take_succ_cons, read_events, this, List.get_cons_succ]
      rw [show i + 1 + j = i + (j + 1) by omega]
      split <;> simp

theorem created_buffers_create_events (env : Env) (ctx : CLContext) (ds : List CLBufferDesc) :
    ∀ (i : Nat), (create_events env ctx ds i).filterMap Event.created_buffer =
      (List.range' i ds.length).map env.buffer := by
  induction ds with
  | nil => intro i; simp [create_events]
  | cons d ds ih =>
    intro i
    simp [create_events, create_event, ih (i + 1), List.range'_succ]

theorem read_calls_read_events (env : Env) (ctx : CLContext) (n : Nat) (mem : List Handle)
    (ds : List CLBufferDesc) :
    ∀ (i : Nat), (∀ k, i ≤ k → k < i + ds.length → mem.getD k 0 = env.buffer k) →
      (read_events env ctx n mem ds i).filterMap Event.read_call =
        stated_reads ds ((List.range' i ds.length).map env.buffer) := by
  induction ds with
  | nil => intro i _; simp [read_events, stated_reads]
  | cons d ds ih =>
    intro i h
    have ht := ih (i + 1) (fun k h1 h2 => h k (by omega) (by simp only [List.length_cons]; omega))
    have h0 := h i (le_refl _) (by simp)
    simp only [stated_reads] at ht ⊢
    by_cases hw : wants_read d
    · have hw2 : d.read_back ≠ 0 ∧ d.host_ptr ≠ 0 := by
        unfold wants_read at hw
        exact not_or.1 hw
      simp only [List.getD_eq_getElem?_getD] at h0
      simp [read_events, hw, read_event, ht, List.range'_succ, hw2, h0]
    · have hw2 : ¬ (d.read_back ≠ 0 ∧ d.host_ptr ≠ 0) := by
        unfold wants_read at hw
        intro h2
        exact hw (not_or.2 h2)
      simp only [read_events, hw, if_false, ht, List.length_cons, List.range'_succ,
        List.map_cons, List.zip_cons_cons, List.filterMap_cons, hw2]

theorem stated_reads_length (bufs : List CLBufferDesc) :
    ∀ (hs : List Handle), hs.length = bufs.length →
      (stated_reads bufs hs).length =
        bufs.countP (fun d => decide (d.read_back ≠ 0 ∧ d.host_ptr ≠ 0)) := by
  induction bufs with
  | nil => intro hs _; simp [stated_reads]
  | cons d ds ih =>
    intro hs hlen
    cases hs with
    | nil => simp at hlen
    | cons h hs =>
      have := ih hs (by simpa using hlen)
      simp only [stated_reads] at this ⊢
      by_cases hw : d.read_back ≠ 0 ∧ d.host_ptr ≠ 0
      · simp [List.countP_cons, hw, this]
      · simp only [List.zip_cons_cons, List.filterMap_cons, hw, if_false, this,
          List.countP_cons, decide_False, Bool.false_eq_true, Nat.add_zero]

/-! ## The callback -/

theorem buffer_results_create_events (env : Env) (ctx : CLContext) (ds : List CLBufferDesc) :
    ∀ (i : Nat), (create_events env ctx ds i).filterMap Event.buffer_result =
      (List.range' i ds.length).map env.buffer_err := by
  induction ds with
  | nil => intro i; simp [create_events]
  | cons d ds ih =>
    intro i
    simp [create_events, create_event, ih (i + 1), List.range'_succ]

theorem no_event_of_filterMap_nil {β : Type} (f : Event → Option β) (tr pre post : List Event)
    (e : Event) (h : tr.filterMap f = []) (hd : tr = pre ++ e :: post) : f e = none := by
  rw [List.filterMap_eq_nil_iff] at h
  exact h e (by rw [hd]; simp)

theorem split_unique {β : Type} (f : Event → Option β) (P Q pre post : List Event)
    (x e : Event) (hP : P.filterMap f = []) (hQ : Q.filterMap f = [])
    (h : P ++ x :: Q = pre ++ e :: post) (he : f e ≠ none) :
    pre = P ∧ e = x ∧ post = Q := by
  rw [List.filterMap_eq_nil_iff] at hP hQ
  rcases List.append_eq_append_iff.1 h with ⟨a, ha1, ha2⟩ | ⟨c, hc1, hc2⟩
  · cases a with
    | nil =>
      simp only [List.nil_append, List.cons.injEq] at ha2
      simp only [List.append_nil] at ha1
      exact ⟨ha1, ha2.1.symm, ha2.2.symm⟩
    | cons y a =>
      simp only [List.cons_append, List.cons.injEq] at ha2
      exact absurd (hQ e (by rw [ha2.2]; simp)) he
  · cases c with
    | nil =>
      simp only [List.nil_append, List.cons.injEq] at hc2
      simp only [List.append_nil] at hc1
      exact ⟨hc1.symm, hc2.1, hc2.2⟩
    | cons y c =>
      simp only [List.cons_append, List.cons.injEq] at hc2
      obtain ⟨rfl, _⟩ := hc2
      exact absurd (hP e (by rw [hc1]; simp)) he

theorem bind_position (env : Env) (ctx : CLContext) (kd : CLKernelDesc)
    (bufs : List CLBufferDesc) (bind_args : CLArgBindFn) (user_data : Handle)
    (Q : List Event) (hQ : Q.filterMap Event.bind_call = [])
    (hb : ∀ j, j < bufs.length → env.buffer_err j = CL_SUCCESS)
    (pre post : List Event) (e : Event) (kern : Handle) (hs : List Handle) (cnt : Int)
    (ud : Handle)
    (h : (setup_events env ctx kd bufs.length ++ create_events env ctx bufs 0) ++
      bind_event env bufs.length bind_args user_data :: Q = pre ++ e :: post)
    (he : e.bind_call = some (kern, hs, cnt, ud)) :
    buffer_results pre = List.replicate bufs.length CL_SUCCESS ∧
    create_calls pre = bufs.map stated_create ∧
    hs = created_buffers pre ∧ hs.length = bufs.length ∧
    cnt = (bufs.length : Int) ∧ ud = user_data := by
  obtain ⟨rfl, rfl, rfl⟩ := split_unique Event.bind_call _ Q pre post _ e
    (by simp [setup_events, filterMap_create_events]) hQ h (by rw [he]; simp)
  simp only [bind_event, Event.bind_call, Option.some.injEq, Prod.mk.injEq] at he
  obtain ⟨_, rfl, rfl, rfl⟩ := he
  refine ⟨?_, ?_, ?_, ?_, rfl, rfl⟩
  · simp only [buffer_results, List.filterMap_append, buffer_results_create_events]
    simp only [setup_events, List.filterMap_cons, Event.buffer_result, List.filterMap_nil,
      List.nil_append]
    rw [List.eq_replicate_iff]
    refine ⟨by simp, ?_⟩
    intro b hbm
    obtain ⟨j, hj, rfl⟩ := List.mem_map.1 hbm
    exact hb j (by simpa using hj)
  · simp [create_calls, setup_events, create_calls_create_events]
  · simp [created_buffers, setup_events, created_buffers_create_events, mem_after,
      List.range_eq_range']
  · simp [mem_after]

theorem release_loop_all (env : Env) (p : Handle) (hp : p ≠ 0) (n : Nat)
    (h : ∀ i, i < n → env.buffer i ≠ 0) :
    release_loop p (mem_after env n n) n =
      ((List.range' 0 n).map env.buffer).reverse.map Event.clReleaseMemObject := by
  rw [release_loop_mem_after env p hp n n (le_refl _), ← List.range_eq_range',
    List.map_reverse, List.map_map]
  congr 2
  rw [List.filter_eq_self]
  intro j hj
  simpa using h j (List.mem_range.1 hj)

/-! ## Stages -/

theorem stops_of_split (A B : List Event) (x : Event)
    (hA : ∀ a ∈ A, a.failed = false) (hB : ∀ b ∈ B, b.is_stage = false) :
    stops_at_failure (A ++ x :: B) := by
  unfold stops_at_failure
  rw [List.pairwise_append]
  refine ⟨List.pairwise_of_forall_mem_list (fun a ha b _ hf => ?_), ?_, fun a ha b _ hf => ?_⟩
  · rw [hA a ha] at hf; exact absurd hf (by simp)
  · rw [List.pairwise_cons]
    exact ⟨fun b hb _ => hB b hb, List.pairwise_of_forall_mem_list (fun a _ b hb _ => hB b hb)⟩
  · rw [hA a ha] at hf; exact absurd hf (by simp)

theorem cleanup_quiet (n : Nat) (st : Locals) : ∀ b ∈ cleanup n st, b.is_stage = false := by
  intro b hb
  unfold cleanup at hb
  simp only [List.mem_append, List.mem_singleton] at hb
  rcases hb with (((hb | hb) | hb) | hb) | hb
  · obtain ⟨h, rfl⟩ := release_loop_mem _ _ _ b hb
    rfl
  · subst hb; rfl
  · split at hb
    · simp at hb; subst hb; rfl
    · simp at hb
  · split at hb
    · simp at hb; subst hb; rfl
    · simp at hb
  · subst hb; rfl

theorem print_build_log_quiet (env : Env) (p d : Handle) :
    ∀ b ∈ print_build_log env p d, b.is_stage = false := by
  intro b hb
  simp only [print_build_log] at hb
  split at hb
  · simp at hb
    rcases hb with rfl | rfl <;> rfl
  · simp at hb
    rcases hb with rfl | rfl | rfl | rfl | rfl <;> rfl

theorem create_events_ok (env : Env) (ctx : CLContext) (ds : List CLBufferDesc) (i : Nat)
    (h : ∀ k, i ≤ k → k < i + ds.length → env.buffer_err k = CL_SUCCESS) :
    ∀ a ∈ create_events env ctx ds i, a.failed = false := by
  intro a ha
  obtain ⟨j, d, h1, h2, rfl⟩ := create_events_mem env ctx ds i a ha
  simp [create_event, h j h1 h2]

theorem read_events_ok (env : Env) (ctx : CLContext) (n : Nat) (mem : List Handle)
    (ds : List CLBufferDesc) :
    ∀ (i : Nat), (∀ j (hj : j < ds.length), wants_read (ds.get ⟨j, hj⟩) →
        env.read_err (i + j) = CL_SUCCESS) →
      ∀ a ∈ read_events env ctx n mem ds i, a.failed = false := by
  induction ds with
  | nil => intro i _ a ha; simp [read_events] at ha
  | cons d ds ih =>
    intro i h a ha
    have ht := ih (i + 1) (fun j hj hw => by
      have := h (j + 1) (by simpa using hj) (by simpa using hw)
      rwa [show i + (j + 1) = i + 1 + j by omega] at this)
    simp only [read_events] at ha
    split at ha
    · rename_i hw
      simp only [List.mem_cons] at ha
      rcases ha with rfl | ha
      · have h0 : env.read_err i = CL_SUCCESS := by simpa using h 0 (by simp) (by simpa using hw)
        simp [read_event, h0]
      · exact ht a ha
    · exact ht a ha

theorem read_events_take_ok (env : Env) (ctx : CLContext) (n : Nat) (mem : List Handle)
    (bufs : List CLBufferDesc) (j : Nat)
    (h : ∀ k (hk : k < bufs.length), k < j → wants_read (bufs.get ⟨k, hk⟩) →
      env.read_err k = CL_SUCCESS) :
    ∀ a ∈ read_events env ctx n mem (bufs.take j) 0, a.failed = false := by
  apply read_events_ok
  intro k hk hw
  have hk2 : k < j ∧ k < bufs.length := by
    simpa [List.length_take] using hk
  rw [Nat.zero_add]
  refine h k hk2.2 hk2.1 ?_
  simpa [List.get_eq_getElem] using hw

theorem ok_append (A B : List Event) (hA : ∀ a ∈ A, a.failed = false)
    (hB : ∀ a ∈ B, a.failed = false) : ∀ a ∈ A ++ B, a.failed = false := by
  intro a ha
  rcases List.mem_append.1 ha with h | h
  · exact hA a h
  · exact hB a h

theorem quiet_stderr (t : String) (B : List Event) (hB : ∀ b ∈ B, b.is_stage = false) :
    ∀ b ∈ Event.fprintf_stderr t :: B, b.is_stage = false := by
  intro b hb
  rcases List.mem_cons.1 hb with rfl | h
  · rfl
  · exact hB b h

theorem quiet_append (A B : List Event) (hA : ∀ b ∈ A, b.is_stage = false)
    (hB : ∀ b ∈ B, b.is_stage = false) : ∀ b ∈ A ++ B, b.is_stage = false := by
  intro b hb
  rcases List.mem_append.1 hb with h | h
  · exact hA b h
  · exact hB b h

theorem setup_events_ok (env : Env) (ctx : CLContext) (kd : CLKernelDesc) (n : Nat)
    (hs : env.setup_ok) : ∀ a ∈ setup_events env ctx kd n, a.failed = false := by
  obtain ⟨h1, h2, h3, h4, h5⟩ := hs
  intro a ha
  simp only [setup_events, List.mem_cons, List.mem_singleton, List.not_mem_nil, or_false] at ha
  rcases ha with rfl | rfl | rfl | rfl | rfl <;> simp [h1, h2, h3, h4, h5]

theorem run_stops (env : Env) (ctx : CLContext) (kd : CLKernelDesc)
    (bufs : List CLBufferDesc) (bind_args : CLArgBindFn) (user_data : Handle) :
    stops_at_failure (cl_run_kernel env ctx kd bufs bind_args user_data).1 := by
  unfold cl_run_kernel
  apply body_elim env ctx kd bufs bind_args user_data
    (fun r => stops_at_failure (r.1 ++ cleanup bufs.length r.2))
  · intro _
    exact stops_of_split [] _ _ (by simp) (quiet_stderr _ _ (cleanup_quiet _ _))
  · intro h1 _
    have := stops_of_split [Event.calloc bufs.length env.device_bufs] _
      (Event.load_kernel_source kd.source_path env.source env.loader_err)
      (by simp [h1]) (quiet_stderr ("[OpenCL] Could not load kernel source: "
        ++ kd.source_path ++ "\n") _ (cleanup_quiet bufs.length
        { ret := -1, source := env.source, program := 0, kernel := 0,
          device_bufs := env.device_bufs, mem := List.replicate bufs.length 0 }))
    simpa using this
  · intro h1 h2 _
    have := stops_of_split [Event.calloc bufs.length env.device_bufs,
        Event.load_kernel_source kd.source_path env.source env.loader_err] _
      (Event.clCreateProgramWithSource ctx.context env.source env.program env.program_err)
      (by simp [h1, h2]) (quiet_stderr
        (CL_CHECK_text "clCreateProgramWithSource failed" env.program_err) _
        (cleanup_quiet bufs.length
        { ret := -1, source := env.source, program := env.program, kernel := 0,
          device_bufs := env.device_bufs, mem := List.replicate bufs.length 0 }))
    simpa using this
  · intro h1 h2 h3 _
    have := stops_of_split [Event.calloc bufs.length env.device_bufs,
        Event.load_kernel_source kd.source_path env.source env.loader_err,
        Event.clCreateProgramWithSource ctx.context env.source env.program env.program_err] _
      (Event.clBuildProgram env.program ctx.device_id env.build_err)
      (by simp [h1, h2, h3]) (quiet_append _ _
        (print_build_log_quiet env env.program ctx.device_id) (cleanup_quiet bufs.length
        { ret := -1, source := env.source, program := env.program, kernel := 0,
          device_bufs := env.device_bufs, mem := List.replicate bufs.length 0 }))
    simpa using this
  · intro h1 h2 h3 h4 _
    have := stops_of_split [Event.calloc bufs.length env.device_bufs,
        Event.load_kernel_source kd.source_path env.source env.loader_err,
        Event.clCreateProgramWithSource ctx.context env.source env.program env.program_err,
        Event.clBuildProgram env.program ctx.device_id env.build_err] _
      (Event.clCreateKernel env.program kd.kernel_name env.kernel env.kernel_err)
      (by simp [h1, h2, h3, h4]) (quiet_stderr
        (CL_CHECK_text "clCreateKernel failed" env.kernel_err) _
        (cleanup_quiet bufs.length (locals_after env bufs.length 0 (-1))))
    simpa [setup_events] using this
  · intro hs j hj hk _
    have := stops_of_split
      (setup_events env ctx kd bufs.length ++ create_events env ctx (bufs.take j) 0) _
      (create_event env ctx (0 + j) (bufs.get ⟨j, hj⟩))
      (ok_append _ _ (setup_events_ok env ctx kd _ hs)
        (create_events_ok env ctx _ 0 (fun k _ hk2 => hk k (by
          simp only [List.length_take] at hk2; omega))))
      (quiet_stderr ("[OpenCL] clCreateBuffer failed for buffer " ++ toString j
            ++ " (code " ++ toString (env.buffer_err j) ++ ")\n") _
        (cleanup_quiet bufs.length (locals_after env bufs.length (j + 1) (-1))))
    simpa [create_events_take_succ env ctx bufs 0 j hj] using this
  · intro hs hb _
    have := stops_of_split
      (setup_events env ctx kd bufs.length ++ create_events env ctx bufs 0) _
      (bind_event env bufs.length bind_args user_data)
      (ok_append _ _ (setup_events_ok env ctx kd _ hs)
        (create_events_ok env ctx _ 0 (fun k _ hk2 => hb k (by omega))))
      (quiet_stderr "[OpenCL] Argument binding callback returned error\n" _
        (cleanup_quiet bufs.length (locals_after env bufs.length bufs.length (-1))))
    simpa using this
  · intro hs hb hbind _
    have := stops_of_split
      (setup_events env ctx kd bufs.length ++ create_events env ctx bufs 0 ++
        [bind_event env bufs.length bind_args user_data]) _
      (launch_event env ctx kd)
      (ok_append _ _ (ok_append _ _ (setup_events_ok env ctx kd _ hs)
        (create_events_ok env ctx _ 0 (fun k _ hk2 => hb k (by omega))))
        (by simp [bind_event, hbind]))
      (quiet_stderr (CL_CHECK_text "clEnqueueNDRangeKernel failed" env.enqueue_err) _
        (cleanup_quiet bufs.length (locals_after env bufs.length bufs.length (-1))))
    simpa using this
  · intro hs hb hbind hq j hj hk hw _
    have := stops_of_split
      (setup_events env ctx kd bufs.length ++ create_events env ctx bufs 0 ++
        [bind_event env bufs.length bind_args user_data, launch_event env ctx kd] ++
        read_events env ctx bufs.length (mem_after env bufs.length bufs.length)
          (bufs.take j) 0) _
      (read_event env ctx bufs.length (mem_after env bufs.length bufs.length) (0 + j)
        (bufs.get ⟨j, hj⟩))
      (ok_append _ _ (ok_append _ _ (ok_append _ _ (setup_events_ok env ctx kd _ hs)
        (create_events_ok env ctx _ 0 (fun k _ hk2 => hb k (by omega))))
        (by simp [bind_event, launch_event, hbind, hq]))
        (read_events_take_ok env ctx _ _ bufs j hk))
      (quiet_stderr ("[OpenCL] clEnqueueReadBuffer failed for buffer "
            ++ toString j ++ " (code " ++ toString (env.read_err j) ++ ")\n") _
        (cleanup_quiet bufs.length (locals_after env bufs.length bufs.length (-1))))
    simpa [read_events_take_succ env ctx bufs.length _ bufs 0 j hj hw] using this
  · intro hs hb hbind hq hrd
    have := stops_of_split
      (setup_events env ctx kd bufs.length ++ create_events env ctx bufs 0 ++
        [bind_event env bufs.length bind_args user_data, launch_event env ctx kd] ++
        read_events env ctx bufs.length (mem_after env bufs.length bufs.length) bufs 0) _
      (Event.clFinish ctx.command_queue)
      (ok_append _ _ (ok_append _ _ (ok_append _ _ (setup_events_ok env ctx kd _ hs)
        (create_events_ok env ctx _ 0 (fun k _ hk2 => hb k (by omega))))
        (by simp [bind_event, launch_event, hbind, hq]))
        (read_events_ok env ctx _ _ bufs 0 (fun k hk hw => by
          rw [Nat.zero_add]; exact hrd k hk hw)))
      (cleanup_quiet bufs.length (locals_after env bufs.length bufs.length 0))
    simpa using this

theorem getElem?_map_range (f : Nat → Int) (m i : Nat) (err : Int)
    (h : ((List.range' 0 m).map f)[i]? = some err) : i < m ∧ f i = err := by
  rw [← List.range_eq_range', List.getElem?_map] at h
  by_cases hi : i < m
  · rw [List.getElem?_range hi] at h
    exact ⟨hi, by simpa using h⟩
  · rw [List.getElem?_eq_none (by simpa using hi)] at h
    simp at h

theorem mem_after_full (env : Env) (n : Nat) :
    mem_after env n n = (List.range n).map env.buffer := by
  simp [mem_after]

/-! ## Waiting for the device -/

theorem unfinished_step_mem (p : List (Handle × Event)) (e : Event) :
    ∀ c ∈ unfinished_step p e, c ∈ p ∨ (c.2 = e ∧ e.leaves_running = some c.1) := by
  intro c hc
  unfold unfinished_step at hc
  split at hc
  · exact Or.inl (List.mem_filter.1 hc).1
  · split at hc
    · rename_i q hq
      rcases List.mem_append.1 hc with h | h
      · exact Or.inl h
      · simp only [List.mem_singleton] at h
        subst h
        exact Or.inr ⟨rfl, hq⟩
    · exact Or.inl hc

theorem unfinished_foldl_mem (tr : List Event) :
    ∀ (p : List (Handle × Event)), ∀ c ∈ tr.foldl unfinished_step p,
      c ∈ p ∨ (c.2 ∈ tr ∧ c.2.leaves_running = some c.1) := by
  induction tr with
  | nil => intro p c hc; exact Or.inl hc
  | cons e tr ih =>
    intro p c hc
    simp only [List.foldl_cons] at hc
    rcases ih _ c hc with h | ⟨h1, h2⟩
    · rcases unfinished_step_mem p e c h with h3 | ⟨h3, h4⟩
      · exact Or.inl h3
      · exact Or.inr ⟨by rw [h3]; exact List.mem_cons_self _ _, by rw [h3]; exact h4⟩
    · exact Or.inr ⟨List.mem_cons_of_mem _ h1, h2⟩

theorem unfinished_finish (pre : List Event) (q : Handle)
    (h : ∀ e ∈ pre, ∀ q2, e.leaves_running = some q2 → q2 = q) :
    unfinished (pre ++ [Event.clFinish q]) = [] := by
  unfold unfinished
  rw [List.foldl_append]
  simp only [List.foldl_cons, List.foldl_nil, unfinished_step]
  rw [List.filter_eq_nil_iff]
  intro c hc
  rcases unfinished_foldl_mem pre [] c hc with h1 | ⟨h1, h2⟩
  · simp at h1
  · simp [h _ h1 _ h2]

theorem unfinished_quiet (l : List Event) (h : l.filterMap Event.leaves_running = []) :
    l.foldl unfinished_step [] = [] := by
  rw [List.filterMap_eq_nil_iff] at h
  induction l with
  | nil => rfl
  | cons e l ih =>
    have he := h e (List.mem_cons_self _ _)
    have hstep : unfinished_step [] e = [] := by
      unfold unfinished_step
      split
      · rfl
      · rw [he]
    simp only [List.foldl_cons, hstep]
    exact ih (fun a ha => h a (List.mem_cons_of_mem _ ha))

theorem success_prefix_queue (env : Env) (ctx : CLContext) (kd : CLKernelDesc)
    (bufs : List CLBufferDesc) (bind_args : CLArgBindFn) (user_data : Handle) :
    ∀ e ∈ setup_events env ctx kd bufs.length ++ (create_events env ctx bufs 0 ++
        ([bind_event env bufs.length bind_args user_data, launch_event env ctx kd] ++
          read_events env ctx bufs.length (mem_after env bufs.length bufs.length) bufs 0)),
      ∀ q2, e.leaves_running = some q2 → q2 = ctx.command_queue := by
  intro e he q2 hq
  simp only [List.mem_append, List.mem_cons, List.mem_singleton, List.not_mem_nil,
    or_false] at he
  rcases he with he | he | (he | he) | he
  · simp only [setup_events, List.mem_cons, List.mem_singleton, List.not_mem_nil,
      or_false] at he
    rcases he with rfl | rfl | rfl | rfl | rfl <;> simp at hq
  · obtain ⟨j, d, _, _, rfl⟩ := create_events_mem env ctx bufs 0 e he
    simp [create_event] at hq
  · subst he
    simp [bind_event] at hq
  · subst he
    simp only [launch_event, Event.leaves_running] at hq
    split at hq
    · exact (Option.some.inj hq).symm
    · simp at hq
  · obtain ⟨j, d, _, _, rfl⟩ := read_events_mem env ctx _ _ bufs 0 e he
    simp only [read_event, Event.leaves_running] at hq
    split at hq
    · exact (Option.some.inj hq).symm
    · simp at hq

/-! ## The claims -/

/-- C1: `buffer_needs_upload` holds exactly when the host pointer is non-null and the flags
contain `CL_MEM_READ_ONLY` or `CL_MEM_READ_WRITE`; the `clCreateBuffer` calls of
`cl_run_kernel` are, descriptor by descriptor and in order, the calls the specification
prescribes (`CL_MEM_COPY_HOST_PTR` added and the host pointer passed when upload is
needed, the flags unchanged and `NULL` otherwise), for all descriptors once steps 1 and 2
and every allocation succeed; a `CL_MEM_WRITE_ONLY` descriptor is never uploaded. -/
theorem C1_upload_decision (env : Env) (ctx : CLContext) (kd : CLKernelDesc)
    (bufs : List CLBufferDesc) (bind_args : CLArgBindFn) (user_data : Handle) :
    (∀ d : CLBufferDesc, buffer_needs_upload d = true ↔
      (d.host_ptr ≠ 0 ∧
        (d.flags &&& CL_MEM_READ_ONLY ≠ 0 ∨ d.flags &&& CL_MEM_READ_WRITE ≠ 0))) ∧
    create_calls (cl_run_kernel env ctx kd bufs bind_args user_data).1
      <+: bufs.map stated_create ∧
    (env.setup_ok → (∀ j, j < bufs.length → env.buffer_err j = CL_SUCCESS) →
      create_calls (cl_run_kernel env ctx kd bufs bind_args user_data).1
        = bufs.map stated_create) ∧
    (∀ d : CLBufferDesc, d.flags = CL_MEM_WRITE_ONLY →
      buffer_needs_upload d = false ∧ alloc_flags d = CL_MEM_WRITE_ONLY ∧
        alloc_host_ptr d = 0) := by
  refine ⟨buffer_needs_upload_iff, ?_, ?_, ?_⟩
  · unfold cl_run_kernel
    apply body_elim env ctx kd bufs bind_args user_data
      (fun r => create_calls (r.1 ++ cleanup bufs.length r.2) <+: bufs.map stated_create)
    all_goals intros
    all_goals simp [create_calls, filterMap_cleanup, filterMap_print_build_log, setup_events,
      filterMap_read_events, bind_event, launch_event, create_calls_create_events]
    exact List.take_prefix _ _
  · intro hs hb
    revert hs hb
    unfold cl_run_kernel
    apply body_elim env ctx kd bufs bind_args user_data
      (fun r => env.setup_ok → (∀ j, j < bufs.length → env.buffer_err j = CL_SUCCESS) →
        create_calls (r.1 ++ cleanup bufs.length r.2) = bufs.map stated_create)
    all_goals intros
    all_goals simp_all [create_calls, filterMap_cleanup, filterMap_print_build_log,
      setup_events, filterMap_read_events, bind_event, launch_event,
      create_calls_create_events, Env.setup_ok]
  · intro d hd
    have h : buffer_needs_upload d = false := by
      unfold buffer_needs_upload
      rw [hd]
      by_cases h0 : d.host_ptr = 0
      · simp [h0]
      · simp [h0]; decide
    simp [alloc_flags, alloc_host_ptr, h, hd]

/-- Witness of C1 on the three descriptors of `add_vectors`: two uploads, then the
write-only output buffer without upload. -/
theorem C1_upload_decision_witness :
    env_ok.setup_ok ∧ (∀ j, j < bufs_vector.length → env_ok.buffer_err j = CL_SUCCESS) ∧
    create_calls (cl_run_kernel env_ok ctx_sample kd_sample bufs_vector bind_ok 7).1
      = [(36, 16, 10), (36, 16, 20), (2, 16, 0)] :=
  ⟨by unfold Env.setup_ok; decide, fun _ _ => rfl,
    ((C1_upload_decision env_ok ctx_sample kd_sample bufs_vector bind_ok 7).2.2.1
      (by unfold Env.setup_ok; decide) (fun _ _ => rfl)).trans (by decide)⟩

/-- C2 (the code at a failing input): with the output descriptor first and a device-only
buffer last, every call succeeding, `cl_run_kernel` issues one device-to-host copy, and
this last issued copy is non-blocking; the run returns `0`. -/
theorem C2_last_copy_not_blocking :
    read_blocking_flags
        (cl_run_kernel env_ok ctx_sample kd_sample bufs_scratch_last bind_ok 7).1 = [false] ∧
      (cl_run_kernel env_ok ctx_sample kd_sample bufs_scratch_last bind_ok 7).2 = 0 := by
  decide

/-- C3: for invocations run one after the other on one context, the OpenCL runtime keeping
its contract (an object is returned exactly when the call succeeds): every invocation is
its pipeline followed by one teardown; before the teardown nothing is released but the
build-log buffer `print_build_log` allocated for itself; the teardown creates nothing and
releases exactly what the pipeline created, in the order device buffers (reverse of their
creation), handle array, kernel, program, source text; so no resource is outstanding after
an invocation, nor after any number of invocations. -/
theorem C3_teardown_releases (ctx : CLContext) (invs : List Invocation)
    (hc : ∀ v ∈ invs, v.env.conforms v.bufs.length) :
    (∀ v ∈ invs,
      (cl_run_kernel v.env ctx v.kd v.bufs v.bind_args v.user_data).1 =
        (cl_run_kernel_body v.env ctx v.kd v.bufs v.bind_args v.user_data).1 ++
          cleanup v.bufs.length
            (cl_run_kernel_body v.env ctx v.kd v.bufs v.bind_args v.user_data).2 ∧
      release_calls (cl_run_kernel_body v.env ctx v.kd v.bufs v.bind_args v.user_data).1 =
        (acquired_of Kind.build_log
          (cl_run_kernel_body v.env ctx v.kd v.bufs v.bind_args v.user_data).1).map
          Event.free ∧
      release_calls (cleanup v.bufs.length
          (cl_run_kernel_body v.env ctx v.kd v.bufs v.bind_args v.user_data).2) =
        (acquired_of Kind.buffer
            (cl_run_kernel_body v.env ctx v.kd v.bufs v.bind_args v.user_data).1).reverse.map
          Event.clReleaseMemObject ++
        (acquired_of Kind.handle_array
            (cl_run_kernel_body v.env ctx v.kd v.bufs v.bind_args v.user_data).1).map
          Event.free ++
        (acquired_of Kind.kernel
            (cl_run_kernel_body v.env ctx v.kd v.bufs v.bind_args v.user_data).1).map
          Event.clReleaseKernel ++
        (acquired_of Kind.program
            (cl_run_kernel_body v.env ctx v.kd v.bufs v.bind_args v.user_data).1).map
          Event.clReleaseProgram ++
        (acquired_of Kind.source_text
            (cl_run_kernel_body v.env ctx v.kd v.bufs v.bind_args v.user_data).1).map
          Event.free ∧
      acquired (cleanup v.bufs.length
        (cl_run_kernel_body v.env ctx v.kd v.bufs v.bind_args v.user_data).2) = [] ∧
      outstanding (cl_run_kernel v.env ctx v.kd v.bufs v.bind_args v.user_data).1 = 0) ∧
    ∀ m, outstanding (run_sequence ctx (invs.take m)) = 0 := by
  refine ⟨fun v hv => ?_, fun m => ?_⟩
  · obtain ⟨h1, h2, h3⟩ :=
      teardown_releases v.env ctx v.kd v.bufs v.bind_args v.user_data (hc v hv)
    exact ⟨rfl, h1, h2, h3,
      invocation_outstanding v.env ctx v.kd v.bufs v.bind_args v.user_data (hc v hv)⟩
  · exact sequence_outstanding ctx _ (fun v hv => hc v (List.mem_of_mem_take hv))

/-- Witness of C3: a successful invocation followed by one whose second allocation fails. -/
theorem C3_teardown_releases_witness :
    (∀ v ∈ sample_invocations, v.env.conforms v.bufs.length) ∧
      outstanding (run_sequence ctx_sample (sample_invocations.take 2)) = 0 :=
  have h : ∀ v ∈ sample_invocations, v.env.conforms v.bufs.length := by
    intro v hv
    simp only [sample_invocations, List.mem_cons, List.mem_singleton, List.not_mem_nil,
      or_false] at hv
    rcases hv with rfl | rfl <;> (unfold Env.conforms; decide)
  ⟨h, (C3_teardown_releases ctx_sample sample_invocations h).2 2⟩

/-- C4: when the launch was enqueued successfully and no device-to-host copy failed, the
copies `cl_run_kernel` issues are exactly those of the descriptors with `read_back` set and
a non-null host pointer, in descriptor order, each of `size` bytes from offset 0 of the
device buffer created for that descriptor into its `host_ptr`; there is one device buffer
per descriptor, and no copy for any other descriptor. -/
theorem C4_readback_copies (env : Env) (ctx : CLContext) (kd : CLKernelDesc)
    (bufs : List CLBufferDesc) (bind_args : CLArgBindFn) (user_data : Handle)
    (hl : CL_SUCCESS ∈ launch_results (cl_run_kernel env ctx kd bufs bind_args user_data).1)
    (hr : ∀ err ∈ read_results (cl_run_kernel env ctx kd bufs bind_args user_data).1,
      err = CL_SUCCESS) :
    (created_buffers (cl_run_kernel env ctx kd bufs bind_args user_data).1).length
      = bufs.length ∧
    read_calls (cl_run_kernel env ctx kd bufs bind_args user_data).1 =
      stated_reads bufs
        (created_buffers (cl_run_kernel env ctx kd bufs bind_args user_data).1) ∧
    (read_calls (cl_run_kernel env ctx kd bufs bind_args user_data).1).length =
      bufs.countP (fun d => decide (d.read_back ≠ 0 ∧ d.host_ptr ≠ 0)) := by
  revert hl hr
  unfold cl_run_kernel
  apply body_elim env ctx kd bufs bind_args user_data
    (fun r => CL_SUCCESS ∈ launch_results (r.1 ++ cleanup bufs.length r.2) →
      (∀ err ∈ read_results (r.1 ++ cleanup bufs.length r.2), err = CL_SUCCESS) →
      (created_buffers (r.1 ++ cleanup bufs.length r.2)).length = bufs.length ∧
      read_calls (r.1 ++ cleanup bufs.length r.2) =
        stated_reads bufs (created_buffers (r.1 ++ cleanup bufs.length r.2)) ∧
      (read_calls (r.1 ++ cleanup bufs.length r.2)).length =
        bufs.countP (fun d => decide (d.read_back ≠ 0 ∧ d.host_ptr ≠ 0)))
  case h_success =>
    intro hs hb hbind hq hrd _ _
    have hcb : created_buffers (setup_events env ctx kd bufs.length ++
        (create_events env ctx bufs 0 ++
          ([bind_event env bufs.length bind_args user_data, launch_event env ctx kd] ++
            (read_events env ctx bufs.length (mem_after env bufs.length bufs.length) bufs 0 ++
              [Event.clFinish ctx.command_queue]))) ++
        cleanup bufs.length (locals_after env bufs.length bufs.length 0)) =
        (List.range' 0 bufs.length).map env.buffer := by
      simp [created_buffers, filterMap_cleanup, setup_events, filterMap_read_events,
        bind_event, launch_event, created_buffers_create_events]
    have hrc : read_calls (setup_events env ctx kd bufs.length ++
        (create_events env ctx bufs 0 ++
          ([bind_event env bufs.length bind_args user_data, launch_event env ctx kd] ++
            (read_events env ctx bufs.length (mem_after env bufs.length bufs.length) bufs 0 ++
              [Event.clFinish ctx.command_queue]))) ++
        cleanup bufs.length (locals_after env bufs.length bufs.length 0)) =
        stated_reads bufs ((List.range' 0 bufs.length).map env.buffer) := by
      simp only [read_calls, List.filterMap_append]
      rw [read_calls_read_events env ctx bufs.length _ bufs 0 (fun k _ hk => by
        rw [mem_after_getD, if_pos (by omega)])]
      simp [filterMap_cleanup, setup_events, filterMap_create_events, bind_event,
        launch_event]
    simp only [] at hcb hrc ⊢
    rw [hcb, hrc]
    exact ⟨by simp, rfl, stated_reads_length bufs _ (by simp)⟩
  case h_read =>
    intro hs hb hbind hq j hj hk hw he _ hr
    exfalso
    apply he
    apply hr
    simp only [read_results, List.filterMap_append,
      read_events_take_succ env ctx bufs.length _ bufs 0 j hj hw, read_event,
      List.filterMap_cons, List.filterMap_nil, Event.read_result, List.mem_append,
      List.mem_singleton, Nat.zero_add, true_or, or_true]
  all_goals intros
  all_goals simp_all [launch_results, filterMap_cleanup, filterMap_print_build_log,
    setup_events, filterMap_read_events, filterMap_create_events, bind_event, launch_event]

/-- Witness of C4 on the three descriptors of `add_vectors`: one copy, of the output
buffer. -/
theorem C4_readback_copies_witness :
    CL_SUCCESS ∈ launch_results
        (cl_run_kernel env_ok ctx_sample kd_sample bufs_vector bind_ok 7).1 ∧
    (∀ err ∈ read_results (cl_run_kernel env_ok ctx_sample kd_sample bufs_vector bind_ok 7).1,
      err = CL_SUCCESS) ∧
    read_calls (cl_run_kernel env_ok ctx_sample kd_sample bufs_vector bind_ok 7).1 =
      [(502, 0, 16, 30)] :=
  ⟨by decide, by decide,
    ((C4_readback_copies env_ok ctx_sample kd_sample bufs_vector bind_ok 7
      (by decide) (by decide)).2.1).trans (by decide)⟩

/-- C5: the callback is invoked at most once; it is invoked exactly once when the source
was loaded, the program built, the kernel resolved and all `k` buffer allocations
succeeded; and whenever it is invoked, the calls before it include `k` successful
`clCreateBuffer` calls, those of the descriptors in order, the handle array passed holds
their results in the same order, the count passed is `k` and `user_data` is the caller's. -/
theorem C5_callback_once (env : Env) (ctx : CLContext) (kd : CLKernelDesc)
    (bufs : List CLBufferDesc) (bind_args : CLArgBindFn) (user_data : Handle) :
    (bind_calls (cl_run_kernel env ctx kd bufs bind_args user_data).1).length ≤ 1 ∧
    ((0 : Int) ∈ load_results (cl_run_kernel env ctx kd bufs bind_args user_data).1 →
      CL_SUCCESS ∈ build_results (cl_run_kernel env ctx kd bufs bind_args user_data).1 →
      CL_SUCCESS ∈ kernel_results (cl_run_kernel env ctx kd bufs bind_args user_data).1 →
      buffer_results (cl_run_kernel env ctx kd bufs bind_args user_data).1
        = List.replicate bufs.length CL_SUCCESS →
      (bind_calls (cl_run_kernel env ctx kd bufs bind_args user_data).1).length = 1) ∧
    (∀ (pre post : List Event) (e : Event) (kern : Handle) (hs : List Handle) (cnt : Int)
        (ud : Handle),
      (cl_run_kernel env ctx kd bufs bind_args user_data).1 = pre ++ e :: post →
      e.bind_call = some (kern, hs, cnt, ud) →
      buffer_results pre = List.replicate bufs.length CL_SUCCESS ∧
      create_calls pre = bufs.map stated_create ∧
      hs = created_buffers pre ∧ hs.length = bufs.length ∧
      cnt = (bufs.length : Int) ∧ ud = user_data) := by
  refine ⟨?_, ?_, ?_⟩
  · unfold cl_run_kernel
    apply body_elim env ctx kd bufs bind_args user_data
      (fun r => (bind_calls (r.1 ++ cleanup bufs.length r.2)).length ≤ 1)
    all_goals intros
    all_goals simp [bind_calls, filterMap_cleanup, filterMap_print_build_log, setup_events,
      filterMap_read_events, filterMap_create_events, bind_event, launch_event]
  · unfold cl_run_kernel
    apply body_elim env ctx kd bufs bind_args user_data
      (fun r => (0 : Int) ∈ load_results (r.1 ++ cleanup bufs.length r.2) →
        CL_SUCCESS ∈ build_results (r.1 ++ cleanup bufs.length r.2) →
        CL_SUCCESS ∈ kernel_results (r.1 ++ cleanup bufs.length r.2) →
        buffer_results (r.1 ++ cleanup bufs.length r.2)
          = List.replicate bufs.length CL_SUCCESS →
        (bind_calls (r.1 ++ cleanup bufs.length r.2)).length = 1)
    case h_alloc =>
      intro hs j hj hk he _ _ _ hb
      exfalso
      apply he
      have hmem : env.buffer_err j ∈ List.replicate bufs.length CL_SUCCESS := by
        rw [← hb]
        simp only [buffer_results, List.filterMap_append,
          create_events_take_succ env ctx bufs 0 j hj, create_event,
          List.filterMap_cons, List.filterMap_nil, Event.buffer_result, List.mem_append,
          List.mem_singleton, Nat.zero_add, true_or, or_true]
      exact (List.mem_replicate.1 hmem).2
    all_goals intros
    all_goals simp_all [bind_calls, load_results, build_results, kernel_results,
      filterMap_cleanup, filterMap_print_build_log, setup_events,
      filterMap_read_events, filterMap_create_events, bind_event, launch_event]
  · unfold cl_run_kernel
    apply body_elim env ctx kd bufs bind_args user_data
      (fun r => ∀ (pre post : List Event) (e : Event) (kern : Handle) (hs : List Handle)
        (cnt : Int) (ud : Handle),
        r.1 ++ cleanup bufs.length r.2 = pre ++ e :: post →
        e.bind_call = some (kern, hs, cnt, ud) →
        buffer_results pre = List.replicate bufs.length CL_SUCCESS ∧
        create_calls pre = bufs.map stated_create ∧
        hs = created_buffers pre ∧ hs.length = bufs.length ∧
        cnt = (bufs.length : Int) ∧ ud = user_data)
    case h_bind =>
      intro _ hb _ pre post e kern hs cnt ud hd he
      simp only [List.append_assoc, List.cons_append, List.nil_append] at hd
      rw [← List.append_assoc] at hd
      refine bind_position env ctx kd bufs bind_args user_data _ ?_ hb pre post e kern hs
        cnt ud hd he
      simp [filterMap_cleanup]
    case h_launch =>
      intro _ hb _ _ pre post e kern hs cnt ud hd he
      simp only [List.append_assoc, List.cons_append, List.nil_append] at hd
      rw [← List.append_assoc] at hd
      refine bind_position env ctx kd bufs bind_args user_data _ ?_ hb pre post e kern hs
        cnt ud hd he
      simp [filterMap_cleanup, launch_event]
    case h_read =>
      intro _ hb _ _ j hj _ _ _ pre post e kern hs cnt ud hd he
      simp only [List.append_assoc, List.cons_append, List.nil_append] at hd
      rw [← List.append_assoc] at hd
      refine bind_position env ctx kd bufs bind_args user_data _ ?_ hb pre post e kern hs
        cnt ud hd he
      simp [filterMap_cleanup, launch_event, filterMap_read_events]
    case h_success =>
      intro _ hb _ _ _ pre post e kern hs cnt ud hd he
      simp only [List.append_assoc, List.cons_append, List.nil_append] at hd
      rw [← List.append_assoc] at hd
      refine bind_position env ctx kd bufs bind_args user_data _ ?_ hb pre post e kern hs
        cnt ud hd he
      simp [filterMap_cleanup, launch_event, filterMap_read_events]
    all_goals
      intros
      rename_i hd he
      have := no_event_of_filterMap_nil Event.bind_call _ _ _ _
        (by simp [filterMap_cleanup, filterMap_print_build_log, setup_events,
          filterMap_create_events]) hd
      rw [this] at he
      exact absurd he (by simp)

/-- Witness of C5 on the three descriptors of `add_vectors`, every call succeeding. -/
theorem C5_callback_once_witness :
    ((0 : Int) ∈ load_results (cl_run_kernel env_ok ctx_sample kd_sample bufs_vector bind_ok 7).1 ∧
      CL_SUCCESS ∈
        build_results (cl_run_kernel env_ok ctx_sample kd_sample bufs_vector bind_ok 7).1 ∧
      CL_SUCCESS ∈
        kernel_results (cl_run_kernel env_ok ctx_sample kd_sample bufs_vector bind_ok 7).1 ∧
      buffer_results (cl_run_kernel env_ok ctx_sample kd_sample bufs_vector bind_ok 7).1
        = List.replicate bufs_vector.length CL_SUCCESS) ∧
    (bind_calls (cl_run_kernel env_ok ctx_sample kd_sample bufs_vector bind_ok 7).1).length
      = 1 ∧
    [500, 501, 502] = created_buffers
      ((cl_run_kernel env_ok ctx_sample kd_sample bufs_vector bind_ok 7).1.take 8) :=
  ⟨⟨by decide, by decide, by decide, by decide⟩,
    (C5_callback_once env_ok ctx_sample kd_sample bufs_vector bind_ok 7).2.1
      (by decide) (by decide) (by decide) (by decide),
    ((C5_callback_once env_ok ctx_sample kd_sample bufs_vector bind_ok 7).2.2
      ((cl_run_kernel env_ok ctx_sample kd_sample bufs_vector bind_ok 7).1.take 8)
      ((cl_run_kernel env_ok ctx_sample kd_sample bufs_vector bind_ok 7).1.drop 9)
      (Event.bind_args 400 [500, 501, 502] 3 7 0) 400 [500, 501, 502] 3 7
      (by decide) rfl).2.2.1⟩

/-- C6: the OpenCL runtime keeping its contract, whenever the callback returns a non-zero
value `cl_run_kernel` returns non-zero, enqueues no launch, issues no device-to-host copy
and no `clFinish`, and after the pipeline, which releases nothing, runs the teardown:
it releases the `k` device buffers in reverse order, frees the handle array, releases the
kernel and the program and frees the source text. -/
theorem C6_callback_failure (env : Env) (ctx : CLContext) (kd : CLKernelDesc)
    (bufs : List CLBufferDesc) (bind_args : CLArgBindFn) (user_data : Handle)
    (hc : env.conforms bufs.length)
    (hb : ∃ r ∈ bind_results (cl_run_kernel env ctx kd bufs bind_args user_data).1, r ≠ 0) :
    (cl_run_kernel env ctx kd bufs bind_args user_data).2 ≠ 0 ∧
    launch_results (cl_run_kernel env ctx kd bufs bind_args user_data).1 = [] ∧
    read_calls (cl_run_kernel env ctx kd bufs bind_args user_data).1 = [] ∧
    finish_calls (cl_run_kernel env ctx kd bufs bind_args user_data).1 = [] ∧
    (created_buffers (cl_run_kernel_body env ctx kd bufs bind_args user_data).1).length
      = bufs.length ∧
    release_calls (cl_run_kernel_body env ctx kd bufs bind_args user_data).1 = [] ∧
    (cl_run_kernel env ctx kd bufs bind_args user_data).1 =
      (cl_run_kernel_body env ctx kd bufs bind_args user_data).1 ++
        ((created_buffers (cl_run_kernel_body env ctx kd bufs bind_args user_data).1).reverse.map
            Event.clReleaseMemObject ++
          [Event.free env.device_bufs, Event.clReleaseKernel env.kernel,
           Event.clReleaseProgram env.program, Event.free env.source]) := by
  obtain ⟨hcp, hck, hcb⟩ := hc
  revert hb
  unfold cl_run_kernel
  apply body_elim env ctx kd bufs bind_args user_data
    (fun r => (∃ x ∈ bind_results (r.1 ++ cleanup bufs.length r.2), x ≠ 0) →
      r.2.ret ≠ 0 ∧
      launch_results (r.1 ++ cleanup bufs.length r.2) = [] ∧
      read_calls (r.1 ++ cleanup bufs.length r.2) = [] ∧
      finish_calls (r.1 ++ cleanup bufs.length r.2) = [] ∧
      (created_buffers r.1).length = bufs.length ∧
      release_calls r.1 = [] ∧
      r.1 ++ cleanup bufs.length r.2 =
        r.1 ++ ((created_buffers r.1).reverse.map Event.clReleaseMemObject ++
          [Event.free env.device_bufs, Event.clReleaseKernel env.kernel,
           Event.clReleaseProgram env.program, Event.free env.source]))
  case h_bind =>
    intro hs hb hne _
    obtain ⟨h1, h2, h3, h4, h5⟩ := hs
    have hp : env.program ≠ 0 := hcp.1 h3
    have hkn : env.kernel ≠ 0 := hck.1 h5
    have hbn : ∀ i, i < bufs.length → env.buffer i ≠ 0 := fun i hi => (hcb i hi).1 (hb i hi)
    have hcr : created_buffers (setup_events env ctx kd bufs.length ++
        (create_events env ctx bufs 0 ++
          [bind_event env bufs.length bind_args user_data,
            Event.fprintf_stderr "[OpenCL] Argument binding callback returned error\n"])) =
        (List.range' 0 bufs.length).map env.buffer := by
      simp [created_buffers, setup_events, bind_event, created_buffers_create_events]
    simp only [hcr]
    refine ⟨by simp [locals_after], ?_, ?_, ?_, by simp, ?_, ?_⟩
    · simp [launch_results, filterMap_cleanup, setup_events, filterMap_create_events,
        bind_event]
    · simp [read_calls, filterMap_cleanup, setup_events, filterMap_create_events, bind_event]
    · simp [finish_calls, filterMap_cleanup, setup_events, filterMap_create_events,
        bind_event]
    · simp [release_calls, setup_events, filterMap_create_events, bind_event]
    · simp [cleanup, locals_after, release_loop_all env _ h1 bufs.length hbn, hkn, hp]
  all_goals intros
  all_goals simp_all [bind_results, filterMap_cleanup, filterMap_print_build_log,
    setup_events, filterMap_read_events, filterMap_create_events, bind_event, launch_event]

/-- Witness of C6: a callback that returns `-1`. -/
theorem C6_callback_failure_witness :
    env_ok.conforms bufs_vector.length ∧
    (∃ r ∈ bind_results (cl_run_kernel env_ok ctx_sample kd_sample bufs_vector bind_reject 7).1,
      r ≠ 0) ∧
    (cl_run_kernel env_ok ctx_sample kd_sample bufs_vector bind_reject 7).2 ≠ 0 ∧
    launch_results (cl_run_kernel env_ok ctx_sample kd_sample bufs_vector bind_reject 7).1
      = [] :=
  have h1 : env_ok.conforms bufs_vector.length := by unfold Env.conforms; decide
  have h2 : ∃ r ∈ bind_results
      (cl_run_kernel env_ok ctx_sample kd_sample bufs_vector bind_reject 7).1, r ≠ 0 :=
    ⟨-1, by decide, by decide⟩
  ⟨h1, h2, (C6_callback_failure env_ok ctx_sample kd_sample bufs_vector bind_reject 7 h1 h2).1,
    (C6_callback_failure env_ok ctx_sample kd_sample bufs_vector bind_reject 7 h1 h2).2.1⟩

/-- C7 (the code at a failing input): when `clBuildProgram` fails and the `malloc` inside
`print_build_log` returns `NULL`, `cl_run_kernel` writes nothing at all to `stderr`; it
returns `-1` after the build call, the two helper calls and the teardown. -/
theorem C7_silent_build_failure :
    stderr_texts
        (cl_run_kernel env_build_fails_no_log ctx_sample kd_sample bufs_vector bind_ok 7).1
      = [] ∧
    cl_run_kernel env_build_fails_no_log ctx_sample kd_sample bufs_vector bind_ok 7 =
      ([Event.calloc 3 100,
        Event.load_kernel_source "kernels/vector.cl" 200 0,
        Event.clCreateProgramWithSource 3 200 300 0,
        Event.clBuildProgram 300 2 (-11),
        Event.clGetProgramBuildInfo 300 2 CL_PROGRAM_BUILD_LOG 0 0,
        Event.malloc 58 0,
        Event.free 100,
        Event.clReleaseProgram 300,
        Event.free 200], -1) := by
  decide

/-- C8: `cl_run_kernel` returns `0` exactly when every stage succeeded (handle-array
allocation, source load, program creation, build, kernel creation, every buffer
allocation, the callback, the launch, every copy it issues) and `-1` otherwise; no stage
is performed after a stage that failed; in particular when the allocation of buffer `i`
fails, no further buffer is created and there is no callback, launch or copy. -/
theorem C8_first_failure_stops (env : Env) (ctx : CLContext) (kd : CLKernelDesc)
    (bufs : List CLBufferDesc) (bind_args : CLArgBindFn) (user_data : Handle) :
    ((cl_run_kernel env ctx kd bufs bind_args user_data).2 = 0 ↔
      (env.device_bufs ≠ 0 ∧ env.loader_err = 0 ∧ env.program_err = CL_SUCCESS ∧
        env.build_err = CL_SUCCESS ∧ env.kernel_err = CL_SUCCESS ∧
        (∀ j, j < bufs.length → env.buffer_err j = CL_SUCCESS) ∧
        bind_args env.kernel ((List.range bufs.length).map env.buffer) (bufs.length : Int)
          user_data = 0 ∧
        env.enqueue_err = CL_SUCCESS ∧
        (∀ j (hj : j < bufs.length), (bufs.get ⟨j, hj⟩).read_back ≠ 0 →
          (bufs.get ⟨j, hj⟩).host_ptr ≠ 0 → env.read_err j = CL_SUCCESS))) ∧
    ((cl_run_kernel env ctx kd bufs bind_args user_data).2 = 0 ∨
      (cl_run_kernel env ctx kd bufs bind_args user_data).2 = -1) ∧
    stops_at_failure (cl_run_kernel env ctx kd bufs bind_args user_data).1 ∧
    (∀ (i : Nat) (err : Int),
      (buffer_results (cl_run_kernel env ctx kd bufs bind_args user_data).1)[i]? = some err →
      err ≠ CL_SUCCESS →
      (buffer_results (cl_run_kernel env ctx kd bufs bind_args user_data).1).length = i + 1 ∧
      bind_calls (cl_run_kernel env ctx kd bufs bind_args user_data).1 = [] ∧
      launch_results (cl_run_kernel env ctx kd bufs bind_args user_data).1 = [] ∧
      read_calls (cl_run_kernel env ctx kd bufs bind_args user_data).1 = []) := by
  have hwr : ∀ d : CLBufferDesc, wants_read d ↔ (d.read_back ≠ 0 ∧ d.host_ptr ≠ 0) := by
    intro d
    unfold wants_read
    exact not_or
  refine ⟨?_, ?_, ?_, ?_⟩
  · unfold cl_run_kernel
    rw [← mem_after_full]
    apply body_elim env ctx kd bufs bind_args user_data
      (fun r => r.2.ret = 0 ↔
        (env.device_bufs ≠ 0 ∧ env.loader_err = 0 ∧ env.program_err = CL_SUCCESS ∧
        env.build_err = CL_SUCCESS ∧ env.kernel_err = CL_SUCCESS ∧
        (∀ j, j < bufs.length → env.buffer_err j = CL_SUCCESS) ∧
        bind_args env.kernel (mem_after env bufs.length bufs.length) (bufs.length : Int)
          user_data = 0 ∧
        env.enqueue_err = CL_SUCCESS ∧
        (∀ j (hj : j < bufs.length), (bufs.get ⟨j, hj⟩).read_back ≠ 0 →
          (bufs.get ⟨j, hj⟩).host_ptr ≠ 0 → env.read_err j = CL_SUCCESS)))
    case h_alloc =>
      intro _ j hj _ he
      simp only [locals_after]
      constructor
      · intro h; exact absurd h (by decide)
      · intro h; exact absurd (h.2.2.2.2.2.1 j hj) he
    case h_read =>
      intro _ _ _ _ j hj _ hw he
      simp only [locals_after]
      constructor
      · intro h; exact absurd h (by decide)
      · intro h
        exact absurd (h.2.2.2.2.2.2.2.2 j hj ((hwr _).1 hw).1 ((hwr _).1 hw).2) he
    case h_success =>
      intro hs hb hbind hq hrd
      simp only [locals_after, true_iff]
      exact ⟨hs.1, hs.2.1, hs.2.2.1, hs.2.2.2.1, hs.2.2.2.2, hb, hbind, hq,
        fun j hj h1 h2 => hrd j hj ((hwr _).2 ⟨h1, h2⟩)⟩
    all_goals intros
    all_goals simp_all [locals_after]
  · unfold cl_run_kernel
    apply body_elim env ctx kd bufs bind_args user_data
      (fun r => r.2.ret = 0 ∨ r.2.ret = -1)
    all_goals intros
    all_goals simp [locals_after]
  · exact run_stops env ctx kd bufs bind_args user_data
  · unfold cl_run_kernel
    apply body_elim env ctx kd bufs bind_args user_data
      (fun r => ∀ (i : Nat) (err : Int),
        (buffer_results (r.1 ++ cleanup bufs.length r.2))[i]? = some err →
        err ≠ CL_SUCCESS →
        (buffer_results (r.1 ++ cleanup bufs.length r.2)).length = i + 1 ∧
        bind_calls (r.1 ++ cleanup bufs.length r.2) = [] ∧
        launch_results (r.1 ++ cleanup bufs.length r.2) = [] ∧
        read_calls (r.1 ++ cleanup bufs.length r.2) = [])
    case h_alloc =>
      intro _ j hj hk _ i err hi he
      have hlen : (List.take (j + 1) bufs).length = j + 1 := by
        rw [List.length_take]; omega
      have hbr : buffer_results (setup_events env ctx kd bufs.length ++
          (create_events env ctx (List.take (j + 1) bufs) 0 ++
            [Event.fprintf_stderr ("[OpenCL] clCreateBuffer failed for buffer " ++ toString j
              ++ " (code " ++ toString (env.buffer_err j) ++ ")\n")]) ++
          cleanup bufs.length (locals_after env bufs.length (j + 1) (-1))) =
          (List.range' 0 (j + 1)).map env.buffer_err := by
        simp [buffer_results, filterMap_cleanup, setup_events, buffer_results_create_events,
          hlen]
      simp only [hbr] at hi ⊢
      obtain ⟨hij, hie⟩ := getElem?_map_range _ _ _ _ hi
      have hij2 : i = j := by
        by_contra hne
        exact he (by rw [← hie]; exact hk i (by omega))
      subst hij2
      refine ⟨by simp, ?_, ?_, ?_⟩
      · simp [bind_calls, filterMap_cleanup, setup_events, filterMap_create_events]
      · simp [launch_results, filterMap_cleanup, setup_events, filterMap_create_events]
      · simp [read_calls, filterMap_cleanup, setup_events, filterMap_create_events]
    case h_bind =>
      intro _ hb _ i err hi he
      exfalso
      have hbr : buffer_results (setup_events env ctx kd bufs.length ++
          (create_events env ctx bufs 0 ++
            [bind_event env bufs.length bind_args user_data,
              Event.fprintf_stderr "[OpenCL] Argument binding callback returned error\n"]) ++
          cleanup bufs.length (locals_after env bufs.length bufs.length (-1))) =
          (List.range' 0 bufs.length).map env.buffer_err := by
        simp [buffer_results, filterMap_cleanup, setup_events, buffer_results_create_events,
          bind_event]
      simp only [hbr] at hi
      obtain ⟨hij, hie⟩ := getElem?_map_range _ _ _ _ hi
      exact he (by rw [← hie]; exact hb i hij)
    case h_launch =>
      intro _ hb _ _ i err hi he
      exfalso
      have hbr : buffer_results (setup_events env ctx kd bufs.length ++
          (create_events env ctx bufs 0 ++
            [bind_event env bufs.length bind_args user_data, launch_event env ctx kd,
              Event.fprintf_stderr
                (CL_CHECK_text "clEnqueueNDRangeKernel failed" env.enqueue_err)]) ++
          cleanup bufs.length (locals_after env bufs.length bufs.length (-1))) =
          (List.range' 0 bufs.length).map env.buffer_err := by
        simp [buffer_results, filterMap_cleanup, setup_events, buffer_results_create_events,
          bind_event, launch_event]
      simp only [hbr] at hi
      obtain ⟨hij, hie⟩ := getElem?_map_range _ _ _ _ hi
      exact he (by rw [← hie]; exact hb i hij)
    case h_read =>
      intro _ hb _ _ j hj _ _ _ i err hi he
      exfalso
      have hbr : buffer_results (setup_events env ctx kd bufs.length ++
          (create_events env ctx bufs 0 ++
            ([bind_event env bufs.length bind_args user_data, launch_event env ctx kd] ++
              (read_events env ctx bufs.length (mem_after env bufs.length bufs.length)
                (bufs.take (j + 1)) 0 ++
              [Event.fprintf_stderr ("[OpenCL] clEnqueueReadBuffer failed for buffer "
                ++ toString j ++ " (code " ++ toString (env.read_err j) ++ ")\n")]))) ++
          cleanup bufs.length (locals_after env bufs.length bufs.length (-1))) =
          (List.range' 0 bufs.length).map env.buffer_err := by
        simp [buffer_results, filterMap_cleanup, setup_events, buffer_results_create_events,
          bind_event, launch_event, filterMap_read_events]
      simp only [hbr] at hi
      obtain ⟨hij, hie⟩ := getElem?_map_range _ _ _ _ hi
      exact he (by rw [← hie]; exact hb i hij)
    case h_success =>
      intro _ hb _ _ _ i err hi he
      exfalso
      have hbr : buffer_results (setup_events env ctx kd bufs.length ++
          (create_events env ctx bufs 0 ++
            ([bind_event env bufs.length bind_args user_data, launch_event env ctx kd] ++
              (read_events env ctx bufs.length (mem_after env bufs.length bufs.length)
                bufs 0 ++ [Event.clFinish ctx.command_queue]))) ++
          cleanup bufs.length (locals_after env bufs.length bufs.length 0)) =
          (List.range' 0 bufs.length).map env.buffer_err := by
        simp [buffer_results, filterMap_cleanup, setup_events, buffer_results_create_events,
          bind_event, launch_event, filterMap_read_events]
      simp only [hbr] at hi
      obtain ⟨hij, hie⟩ := getElem?_map_range _ _ _ _ hi
      exact he (by rw [← hie]; exact hb i hij)
    all_goals intros
    all_goals simp_all [buffer_results, filterMap_cleanup, filterMap_print_build_log,
      setup_events]

/-- Witness of C8: the allocation of buffer 1 fails. -/
theorem C8_first_failure_stops_witness :
    (buffer_results
      (cl_run_kernel env_alloc_fails ctx_sample kd_sample bufs_vector bind_ok 7).1)[1]?
        = some (-61) ∧
    (-61 : Int) ≠ CL_SUCCESS ∧
    (buffer_results
      (cl_run_kernel env_alloc_fails ctx_sample kd_sample bufs_vector bind_ok 7).1).length
        = 1 + 1 ∧
    bind_calls (cl_run_kernel env_alloc_fails ctx_sample kd_sample bufs_vector bind_ok 7).1
      = [] :=
  ⟨by decide, by decide,
    ((C8_first_failure_stops env_alloc_fails ctx_sample kd_sample bufs_vector bind_ok 7).2.2.2
      1 (-61) (by decide) (by decide)).1,
    ((C8_first_failure_stops env_alloc_fails ctx_sample kd_sample bufs_vector bind_ok 7).2.2.2
      1 (-61) (by decide) (by decide)).2.1⟩

/-- C9 (counterexample): when `clCreateCommandQueue` fails, `cl_init` returns `-1` having
obtained the device handle `2`, which `cl_cleanup` would release, without releasing it;
the only release is that of the context. -/
theorem C9_device_not_released :
    (cl_init init_env_queue_fails ctx_blank).2.2 = -1 ∧
    Event.clGetDeviceIDs 1 CL_DEVICE_TYPE_GPU 2 CL_SUCCESS ∈
      (cl_init init_env_queue_fails ctx_blank).1 ∧
    Event.clReleaseDevice 2 ∈ cl_cleanup (cl_init init_env_queue_fails ctx_blank).2.1 ∧
    Event.clReleaseDevice 2 ∉ (cl_init init_env_queue_fails ctx_blank).1 ∧
    init_releases (cl_init init_env_queue_fails ctx_blank).1 = [Event.clReleaseContext 3] := by
  decide

/-- C9 (amended): `cl_init` returns `0` exactly when platform lookup, device lookup, context
creation and queue creation all succeeded and `-1` otherwise; when it succeeds it releases
nothing, and when it fails it has released exactly the objects it created (the context,
when queue creation is the failing step) and nothing else, so that no created object is
left owned; the looked-up device handle is never released by `cl_init`. -/
theorem C9_init_all_or_nothing (env : InitEnv) (ctx : CLContext) :
    ((cl_init env ctx).2.2 = 0 ↔
      (env.platform_err = CL_SUCCESS ∧ env.device_err = CL_SUCCESS ∧
        env.context_err = CL_SUCCESS ∧ env.queue_err = CL_SUCCESS)) ∧
    ((cl_init env ctx).2.2 = 0 ∨ (cl_init env ctx).2.2 = -1) ∧
    init_releases (cl_init env ctx).1 =
      (if (cl_init env ctx).2.2 = 0 then [] else init_created (cl_init env ctx).1) ∧
    init_created (cl_init env ctx).1 =
      (if env.platform_err = CL_SUCCESS ∧ env.device_err = CL_SUCCESS ∧
          env.context_err = CL_SUCCESS then
        (if env.queue_err = CL_SUCCESS then
          [Event.clReleaseContext env.context, Event.clReleaseCommandQueue env.command_queue]
        else [Event.clReleaseContext env.context])
      else []) ∧
    (∀ d, Event.clReleaseDevice d ∉ (cl_init env ctx).1) := by
  unfold cl_init
  by_cases h1 : env.platform_err = CL_SUCCESS <;> by_cases h2 : env.device_err = CL_SUCCESS <;>
    by_cases h3 : env.context_err = CL_SUCCESS <;> by_cases h4 : env.queue_err = CL_SUCCESS <;>
    simp [h1, h2, h3, h4, init_releases, init_created]

/-- C10 (counterexample): with every call up to and including the launch succeeding and
the copy of descriptor 2 failing, `cl_run_kernel` returns `-1` although the launch was
enqueued successfully. -/
theorem C10_abort_after_launch :
    (cl_run_kernel env_read_fails ctx_sample kd_sample bufs_vector bind_ok 7).2 = -1 ∧
    CL_SUCCESS ∈ launch_results
      (cl_run_kernel env_read_fails ctx_sample kd_sample bufs_vector bind_ok 7).1 ∧
    read_results (cl_run_kernel env_read_fails ctx_sample kd_sample bufs_vector bind_ok 7).1
      = [-5] := by
  decide

/-- C10 (amended): in every invocation of `cl_run_kernel` that returns non-zero, either no
launch was enqueued successfully, or a device-to-host copy issued after the launch
failed. -/
theorem C10_abort_points (env : Env) (ctx : CLContext) (kd : CLKernelDesc)
    (bufs : List CLBufferDesc) (bind_args : CLArgBindFn) (user_data : Handle)
    (h : (cl_run_kernel env ctx kd bufs bind_args user_data).2 ≠ 0) :
    CL_SUCCESS ∉ launch_results (cl_run_kernel env ctx kd bufs bind_args user_data).1 ∨
    ∃ err ∈ read_results (cl_run_kernel env ctx kd bufs bind_args user_data).1,
      err ≠ CL_SUCCESS := by
  revert h
  unfold cl_run_kernel
  apply body_elim env ctx kd bufs bind_args user_data
    (fun r => r.2.ret ≠ 0 →
      (CL_SUCCESS ∉ launch_results (r.1 ++ cleanup bufs.length r.2) ∨
        ∃ err ∈ read_results (r.1 ++ cleanup bufs.length r.2), err ≠ CL_SUCCESS))
  case h_read =>
    intro _ _ _ _ j hj _ hw he _
    refine Or.inr ⟨env.read_err j, ?_, he⟩
    simp only [read_results, List.filterMap_append,
      read_events_take_succ env ctx bufs.length _ bufs 0 j hj hw, read_event,
      List.filterMap_cons, List.filterMap_nil, Event.read_result, List.mem_append,
      List.mem_singleton, Nat.zero_add, true_or, or_true]
  case h_success =>
    intro _ _ _ _ _ h
    exact absurd rfl h
  case h_launch =>
    intro _ _ _ hq _
    left
    simp [launch_results, filterMap_cleanup, setup_events, filterMap_create_events,
      bind_event, launch_event]
    exact fun h => hq h.symm
  all_goals intros
  all_goals
    left
    simp_all [launch_results, filterMap_cleanup, filterMap_print_build_log, setup_events,
      filterMap_create_events, bind_event, launch_event]

/-- Witness of C10 (amended): the copy of descriptor 2 fails. -/
theorem C10_abort_points_witness :
    (cl_run_kernel env_read_fails ctx_sample kd_sample bufs_vector bind_ok 7).2 ≠ 0 ∧
    (CL_SUCCESS ∉ launch_results
        (cl_run_kernel env_read_fails ctx_sample kd_sample bufs_vector bind_ok 7).1 ∨
      ∃ err ∈ read_results
          (cl_run_kernel env_read_fails ctx_sample kd_sample bufs_vector bind_ok 7).1,
        err ≠ CL_SUCCESS) :=
  ⟨by decide,
    C10_abort_points env_read_fails ctx_sample kd_sample bufs_vector bind_ok 7 (by decide)⟩

/-- C11: in every invocation of `cl_run_kernel` that returns `0`, the calls are some calls
`pre`, then `clFinish` on the context's queue, then the teardown; `pre` holds the
successful launch and every device-to-host copy, no `clFinish` and no release; so the one
wait comes after the launch and after every copy and before any release, whether or not a
copy was requested and whatever the blocking flag of the last copy.  As `clFinish` returns
only when the commands of its queue have completed, no launch or copy is left unfinished
at the wait, nor when the engine returns. -/
theorem C11_finish_before_release (env : Env) (ctx : CLContext) (kd : CLKernelDesc)
    (bufs : List CLBufferDesc) (bind_args : CLArgBindFn) (user_data : Handle)
    (h : (cl_run_kernel env ctx kd bufs bind_args user_data).2 = 0) :
    ∃ pre : List Event,
      (cl_run_kernel env ctx kd bufs bind_args user_data).1 =
        pre ++ Event.clFinish ctx.command_queue ::
          cleanup bufs.length (cl_run_kernel_body env ctx kd bufs bind_args user_data).2 ∧
      launch_results pre = [CL_SUCCESS] ∧
      launch_results (cl_run_kernel env ctx kd bufs bind_args user_data).1 = [CL_SUCCESS] ∧
      read_calls pre = read_calls (cl_run_kernel env ctx kd bufs bind_args user_data).1 ∧
      finish_calls pre = [] ∧
      finish_calls (cl_run_kernel env ctx kd bufs bind_args user_data).1
        = [ctx.command_queue] ∧
      release_calls pre = [] ∧
      unfinished (pre ++ [Event.clFinish ctx.command_queue]) = [] ∧
      unfinished (cl_run_kernel env ctx kd bufs bind_args user_data).1 = [] := by
  revert h
  unfold cl_run_kernel
  apply body_elim env ctx kd bufs bind_args user_data
    (fun r => r.2.ret = 0 →
      ∃ pre : List Event,
        r.1 ++ cleanup bufs.length r.2 =
          pre ++ Event.clFinish ctx.command_queue :: cleanup bufs.length r.2 ∧
        launch_results pre = [CL_SUCCESS] ∧
        launch_results (r.1 ++ cleanup bufs.length r.2) = [CL_SUCCESS] ∧
        read_calls pre = read_calls (r.1 ++ cleanup bufs.length r.2) ∧
        finish_calls pre = [] ∧
        finish_calls (r.1 ++ cleanup bufs.length r.2) = [ctx.command_queue] ∧
        release_calls pre = [] ∧
        unfinished (pre ++ [Event.clFinish ctx.command_queue]) = [] ∧
        unfinished (r.1 ++ cleanup bufs.length r.2) = [])
  case h_success =>
    intro hs hb hbind hq hrd _
    have hfin := unfinished_finish _ ctx.command_queue
      (success_prefix_queue env ctx kd bufs bind_args user_data)
    refine ⟨setup_events env ctx kd bufs.length ++ (create_events env ctx bufs 0 ++
        ([bind_event env bufs.length bind_args user_data, launch_event env ctx kd] ++
          read_events env ctx bufs.length (mem_after env bufs.length bufs.length) bufs 0)),
      by simp, ?_, ?_, ?_, ?_, ?_, ?_, hfin, ?_⟩
    · simp [launch_results, setup_events, filterMap_create_events, bind_event, launch_event,
        filterMap_read_events, hq]
    · simp [launch_results, setup_events, filterMap_create_events, bind_event, launch_event,
        filterMap_read_events, filterMap_cleanup, hq]
    · simp [read_calls, filterMap_cleanup, bind_event, launch_event]
    · simp [finish_calls, setup_events, filterMap_create_events, bind_event, launch_event,
        filterMap_read_events]
    · simp [finish_calls, setup_events, filterMap_create_events, bind_event, launch_event,
        filterMap_read_events, filterMap_cleanup]
    · simp [release_calls, setup_events, filterMap_create_events, bind_event, launch_event,
        filterMap_read_events, hs.1]
    · have hsplit : setup_events env ctx kd bufs.length ++ (create_events env ctx bufs 0 ++
          ([bind_event env bufs.length bind_args user_data, launch_event env ctx kd] ++
            (read_events env ctx bufs.length (mem_after env bufs.length bufs.length) bufs 0 ++
              [Event.clFinish ctx.command_queue]))) ++
          cleanup bufs.length (locals_after env bufs.length bufs.length 0) =
          (setup_events env ctx kd bufs.length ++ (create_events env ctx bufs 0 ++
            ([bind_event env bufs.length bind_args user_data, launch_event env ctx kd] ++
              read_events env ctx bufs.length (mem_after env bufs.length bufs.length)
                bufs 0)) ++ [Event.clFinish ctx.command_queue]) ++
          cleanup bufs.length (locals_after env bufs.length bufs.length 0) := by
        simp
      show unfinished _ = []
      rw [hsplit]
      unfold unfinished at hfin ⊢
      rw [List.foldl_append, hfin]
      exact unfinished_quiet _ (filterMap_cleanup _ (by simp) (by simp) (by simp) (by simp) _ _)
  all_goals intros
  all_goals simp_all [locals_after]

/-- Witness of C11: the output descriptor first and a device-only buffer last, so that the
only copy is non-blocking; the run returns `0` after one `clFinish`, nothing unfinished. -/
theorem C11_finish_before_release_witness :
    (cl_run_kernel env_ok ctx_sample kd_sample bufs_scratch_last bind_ok 7).2 = 0 ∧
    read_blocking_flags
      (cl_run_kernel env_ok ctx_sample kd_sample bufs_scratch_last bind_ok 7).1 = [false] ∧
    finish_calls (cl_run_kernel env_ok ctx_sample kd_sample bufs_scratch_last bind_ok 7).1
      = [ctx_sample.command_queue] ∧
    unfinished (cl_run_kernel env_ok ctx_sample kd_sample bufs_scratch_last bind_ok 7).1
      = [] :=
  (C11_finish_before_release env_ok ctx_sample kd_sample bufs_scratch_last bind_ok 7
    (by decide)).elim
    (fun _ hp => ⟨by decide, by decide, hp.2.2.2.2.2.1, hp.2.2.2.2.2.2.2.2⟩)

/-- C12: for every `n >= 1` with `n + 255` representable in `size_t`, the global work size
`((size_t)n + local_size - 1) / local_size * local_size` of the call sites is a multiple
of the local size 256, is at least `n` and less than `n + 256`, and is the smallest
multiple of 256 that is at least `n`; for `n = 1000` it is `1024`. -/
theorem C12_global_size_rounds_up (n : Int) (h1 : 1 ≤ n) (h2 : n + 255 < (SIZE_MOD : Int)) :
    local_size ∣ global_size n ∧
    n ≤ (global_size n : Int) ∧
    (global_size n : Int) < n + 256 ∧
    (∀ m : Nat, local_size ∣ m → n ≤ (m : Int) → global_size n ≤ m) ∧
    global_size 1000 = 1024 := by
  have key : (global_size n : Int) = (n + 255) / 256 * 256 := by
    unfold global_size to_size_t local_size
    unfold SIZE_MOD at h2 ⊢
    omega
  refine ⟨?_, ?_, ?_, ?_, by decide⟩
  · unfold local_size
    omega
  · omega
  · omega
  · intro m hm hn
    unfold local_size at hm
    omega

/-- Witness of C12 at `n = 1000`. -/
theorem C12_global_size_rounds_up_witness :
    (1 : Int) ≤ 1000 ∧ (1000 : Int) + 255 < (SIZE_MOD : Int) ∧
    local_size ∣ global_size 1000 ∧ global_size 1000 = 1024 :=
  ⟨by decide, by decide,
    (C12_global_size_rounds_up 1000 (by decide) (by decide)).1,
    (C12_global_size_rounds_up 1000 (by decide) (by decide)).2.2.2.2⟩

end RunCL
